import Mathlib

/-!
Verification of `api/tasks.py` from the spleeter-web repository.

The module defines three Celery task handlers (`create_static_mix`,
`create_dynamic_mix`, `fetch_youtube_audio`) and helper functions
(`get_separator`, `exists_all_parts`, `rename_all_parts`,
`save_to_local_storage`, `save_to_ext_storage`).

The embedding below models each task as an explicit state-passing function.
The database is persisted only at `.save()` calls: a `Db` maps ids to rows,
updated exactly where the Python code calls `save()`.  Nondeterministic
outcomes of the external world (whether the DB record exists, whether the
external separator / downloader raises, what `os.path.exists` reports
afterwards, whether reading the produced files back raises) are supplied by
an environment record.  Each run also produces a trace of observable events
(saves, the external call, the existence check, renames, file reads and
removals) so that ordering claims can be stated, the exception that reached
an `except` clause (`caught`), and the exception escaping the task
(`raised`).

Operations the claims never exercise as failure points (`pathlib.mkdir`,
`os.rename`, `os.remove`, `os.rmdir`, `save()` itself) are modelled as
succeeding; `shutil.rmtree` is called with `ignore_errors=True` in the
source and cannot raise.
-/

/-- Modelled from the spec: task-status values used by the job rows
(`api/models.py` is not part of the analysed sources; `tasks.py` uses
`TaskStatus.IN_PROGRESS`, `TaskStatus.DONE`, `TaskStatus.ERROR`, and rows
start out queued). -/
inductive TaskStatus where
  | queued
  | in_progress
  | done
  | error
deriving DecidableEq, Repr

/-- Python exceptions relevant to `tasks.py`.  `fileNotFound` models
`FileNotFoundError`, `softTimeLimit` models
`billiard.exceptions.SoftTimeLimitExceeded`, `doesNotExist` models a Django
`Model.DoesNotExist`, and `generic` any other `Exception`.  All four are
subclasses of Python's `Exception`, so a bare `except Exception` catches
every one of them. -/
inductive Exc where
  | fileNotFound (msg : String)
  | softTimeLimit
  | doesNotExist (msg : String)
  | generic (msg : String)
deriving DecidableEq, Repr

/-- `str(error)` for the modelled exceptions. -/
def Exc.toStr : Exc → String
  | .fileNotFound msg => msg
  | .softTimeLimit => "SoftTimeLimitExceeded()"
  | .doesNotExist msg => msg
  | .generic msg => msg

/-- Does the exception match `except FileNotFoundError`? -/
def Exc.isFileNotFound : Exc → Bool
  | .fileNotFound _ => true
  | _ => false

/-- Does the exception match `except SoftTimeLimitExceeded`? -/
def Exc.isSoftTimeLimit : Exc → Bool
  | .softTimeLimit => true
  | _ => false

/-- `os.path.join` for the two-component case (all joined components in
`tasks.py` are relative names, so joining is concatenation with a
separator). -/
def pjoin (a b : String) : String := a ++ "/" ++ b

/-- `os.path.join` with three components. -/
def pjoin3 (a b c : String) : String := pjoin (pjoin a b) c

/-- The relevant Django settings read by `tasks.py`. -/
structure Settings where
  media_root : String
  separate_dir : String
  upload_dir : String
  default_file_storage : String
deriving Repr, DecidableEq

/-- `settings.DEFAULT_FILE_STORAGE == 'django.core.files.storage.FileSystemStorage'`. -/
def Settings.is_local (s : Settings) : Bool :=
  s.default_file_storage = "django.core.files.storage.FileSystemStorage"

/-- The opaque separator objects returned by `get_separator`. -/
inductive Separator where
  | spleeterSeparator
  | demucsSeparator (name : String) (random_shifts : Nat)
deriving DecidableEq, Repr

/-- `get_separator` from `tasks.py`: returns a `SpleeterSeparator` when the
name is `'spleeter'`, otherwise a `DemucsSeparator` built from the name and
the shift count. -/
def get_separator (separator : String) (random_shifts : Nat) : Separator :=
  if separator = "spleeter" then Separator.spleeterSeparator
  else Separator.demucsSeparator separator random_shifts

/-- Observable events of one task run, in program order.  `dbSave` records
a `save()` call together with the table, the id, and the saved `status`
field (`none` for the `SourceFile` row, which has no status field);
`computePaths` marks the path-computation block at the top of the `try`;
`extCall` is the call into the external separator / downloader with its
source and destination; `checkExists` is the `os.path.exists` /
`exists_all_parts` verification with its outcome; `rename` is `os.rename`;
`readFile` is `open(path, 'rb')` + `read()`; `removeFile`, `rmdir` and
`rmtree` are the corresponding `os` / `shutil` calls; `log` is `print`. -/
inductive Event where
  | dbSave (table : String) (id : String) (status : Option TaskStatus)
  | computePaths
  | mkdir (path : String)
  | extCall (src : String) (dest : String)
  | checkExists (path : String) (result : Bool)
  | rename (oldPath : String) (newPath : String)
  | readFile (path : String)
  | removeFile (path : String)
  | rmdir (path : String)
  | rmtree (path : String)
  | log (msg : String)
deriving DecidableEq, Repr

/-- The statuses carried by the `dbSave` events of a trace, in order. -/
def saveStatuses (tr : List Event) : List (Option TaskStatus) :=
  tr.filterMap fun e =>
    match e with
    | Event.dbSave _ _ st => some st
    | _ => none

/-- `precedes p q tr` holds when the first event of `tr` matching `p` or
`q` matches `p` (vacuously when neither occurs): every `q`-event is
strictly after some `p`-event. -/
def precedes (p q : Event → Bool) : List Event → Bool
  | [] => true
  | e :: tr => if q e then false else if p e then true else precedes p q tr

/-- Membership test for an event class in a trace. -/
def occurs (p : Event → Bool) (tr : List Event) : Bool := tr.any p

/-- Modelled from the spec: the `StaticMix` row fields that `tasks.py`
reads or writes (`api/models.py` is outside the analysed sources).
`file` holds the name stored in the row's `FileField`. -/
structure StaticMixRow where
  status : TaskStatus
  error : String
  file : String
  separator : String
  random_shifts : Nat
  formatted_name : String
  source_path : String
  source_url : String
  vocals : Bool
  drums : Bool
  bass : Bool
  other : Bool
deriving DecidableEq, Repr

/-- A table of `StaticMix` rows, keyed by id. -/
abbrev StaticDb := String → Option StaticMixRow

/-- Point update of a `StaticMix` table, performed at each `save()`. -/
def StaticDb.save (db : StaticDb) (id : String) (row : StaticMixRow) : StaticDb :=
  fun k => if k = id then some row else db k

/-- Environment of one `create_static_mix` run: the Django `slugify`
function (external), the settings, the outcome of the
`separator.create_static_mix` call (`none` = returns normally, `some e` =
raises `e`; failures of the preceding path computation and `mkdir` are
subsumed here), the `os.path.exists` oracle for the state after the call,
and the outcome of the `open`/`read` in the non-local copy branch. -/
structure StaticEnv where
  slug : String → String
  settings : Settings
  sepResult : Option Exc
  fsExists : String → Bool
  copyResult : Option Exc

/-- Result of one `create_static_mix` run. -/
structure StaticRun where
  db : StaticDb
  trace : List Event
  caught : Option Exc
  raised : Option Exc

/-- `filename = slugify(static_mix.formatted_name()) + '.mp3'`. -/
def static_filename (env : StaticEnv) (row : StaticMixRow) : String :=
  env.slug row.formatted_name ++ ".mp3"

/-- `rel_media_path = os.path.join(settings.SEPARATE_DIR, static_mix_id, filename)`. -/
def static_rel_media_path (env : StaticEnv) (id : String) (row : StaticMixRow) : String :=
  pjoin3 env.settings.separate_dir id (static_filename env row)

/-- `rel_path = os.path.join(settings.MEDIA_ROOT, rel_media_path)`. -/
def static_rel_path (env : StaticEnv) (id : String) (row : StaticMixRow) : String :=
  pjoin env.settings.media_root (static_rel_media_path env id row)

/-- `rel_path_dir = os.path.join(settings.MEDIA_ROOT, settings.SEPARATE_DIR, static_mix_id)`
(equal to `directory`). -/
def static_rel_path_dir (env : StaticEnv) (id : String) : String :=
  pjoin3 env.settings.media_root env.settings.separate_dir id

/-- The three `except` clauses of `create_static_mix` /
`create_dynamic_mix`, applied to the in-memory row at the moment the
exception is caught.  `FileNotFoundError` and the bare `Exception` clause
both set `status = ERROR`, `error = str(error)` and save; the
`SoftTimeLimitExceeded` clause only prints `'Aborted!'`. -/
def staticHandle (db : StaticDb) (id : String) (row : StaticMixRow)
    (tr : List Event) (e : Exc) : StaticRun :=
  if e.isSoftTimeLimit then
    { db := db, trace := tr ++ [Event.log "Aborted!"], caught := some e, raised := none }
  else
    let row' := { row with status := TaskStatus.error, error := e.toStr }
    { db := db.save id row'
      trace := tr ++ [Event.dbSave "StaticMix" id (some TaskStatus.error)]
      caught := some e
      raised := none }

/-- `create_static_mix` from `tasks.py`, as a function of the environment,
the current table and the task argument. -/
def create_static_mix (env : StaticEnv) (db : StaticDb) (static_mix_id : String) :
    StaticRun :=
  match db static_mix_id with
  | none =>
    { db := db, trace := [Event.log "StaticMix does not exist"],
      caught := none, raised := none }
  | some static_mix0 =>
    let static_mix := { static_mix0 with status := TaskStatus.in_progress }
    let db := db.save static_mix_id static_mix
    let tr0 := [Event.dbSave "StaticMix" static_mix_id (some TaskStatus.in_progress)]
    let directory := static_rel_path_dir env static_mix_id
    let filename := static_filename env static_mix
    let rel_media_path := static_rel_media_path env static_mix_id static_mix
    let rel_path := static_rel_path env static_mix_id static_mix
    let rel_path_dir := static_rel_path_dir env static_mix_id
    let is_local := env.settings.is_local
    let path := if is_local then static_mix.source_path else static_mix.source_url
    let tr1 := tr0 ++ [Event.computePaths, Event.mkdir directory,
                       Event.extCall path rel_path]
    match env.sepResult with
    | some e => staticHandle db static_mix_id static_mix tr1 e
    | none =>
      if env.fsExists rel_path then
        let tr2 := tr1 ++ [Event.checkExists rel_path true]
        let static_mix := { static_mix with status := TaskStatus.done }
        if is_local then
          let static_mix := { static_mix with file := rel_media_path }
          { db := db.save static_mix_id static_mix
            trace := tr2 ++ [Event.dbSave "StaticMix" static_mix_id (some TaskStatus.done)]
            caught := none
            raised := none }
        else
          match env.copyResult with
          | some e => staticHandle db static_mix_id static_mix tr2 e
          | none =>
            let static_mix := { static_mix with file := filename }
            { db := db.save static_mix_id static_mix
              trace := tr2 ++ [Event.readFile rel_path, Event.removeFile rel_path,
                               Event.rmdir rel_path_dir,
                               Event.dbSave "StaticMix" static_mix_id (some TaskStatus.done)]
              caught := none
              raised := none }
      else
        staticHandle db static_mix_id static_mix
          (tr1 ++ [Event.checkExists rel_path false])
          (Exc.generic "Error writing to file")

/-- Modelled from the spec: the `DynamicMix` row fields that `tasks.py`
reads or writes (`api/models.py` is outside the analysed sources).  The
four `*_file` fields hold the names stored in the row's `FileField`s. -/
structure DynamicMixRow where
  status : TaskStatus
  error : String
  vocals_file : String
  other_file : String
  bass_file : String
  drums_file : String
  separator : String
  random_shifts : Nat
  formatted_name : String
  source_path : String
  source_url : String
deriving DecidableEq, Repr

/-- A table of `DynamicMix` rows, keyed by id. -/
abbrev DynamicDb := String → Option DynamicMixRow

/-- Point update of a `DynamicMix` table, performed at each `save()`. -/
def DynamicDb.save (db : DynamicDb) (id : String) (row : DynamicMixRow) : DynamicDb :=
  fun k => if k = id then some row else db k

/-- Environment of one `create_dynamic_mix` run, with the same reading as
`StaticEnv`: `sepResult` is the outcome of `separator.separate_into_parts`
and `copyResult` the outcome of the `open`/`read` loop of
`save_to_ext_storage`. -/
structure DynamicEnv where
  slug : String → String
  settings : Settings
  sepResult : Option Exc
  fsExists : String → Bool
  copyResult : Option Exc

/-- Result of one `create_dynamic_mix` run. -/
structure DynamicRun where
  db : DynamicDb
  trace : List Event
  caught : Option Exc
  raised : Option Exc

/-- The fixed part list `['vocals', 'other', 'bass', 'drums']` used by
`exists_all_parts` and `rename_all_parts`. -/
def parts_order : List String := ["vocals", "other", "bass", "drums"]

/-- `exists_all_parts` from `tasks.py`: whether `{part}.mp3` exists under
`rel_path` for every part, via the `os.path.exists` oracle. -/
def exists_all_parts (fsExists : String → Bool) (rel_path : String) : Bool :=
  parts_order.all fun part => fsExists (pjoin rel_path (part ++ ".mp3"))

/-- `rename_all_parts` from `tasks.py`, as the list of `os.rename` events
it performs: `{part}.mp3` becomes `{file_stem}-{part}.mp3` for each part
in order. -/
def rename_all_parts (rel_path : String) (file_stem : String) : List Event :=
  parts_order.map fun part =>
    Event.rename (pjoin rel_path (part ++ ".mp3"))
      (pjoin rel_path (file_stem ++ "-" ++ part ++ ".mp3"))

/-- `save_to_local_storage` from `tasks.py`, restricted to its effect on
the row: the four file fields are set to
`os.path.join(rel_media_path, file_stem + '-{part}.mp3')` (the `save()`
event is emitted by the caller's model). -/
def save_to_local_storage (dynamic_mix : DynamicMixRow)
    (rel_media_path : String) (file_stem : String) : DynamicMixRow :=
  { dynamic_mix with
    vocals_file := pjoin rel_media_path (file_stem ++ "-vocals.mp3")
    other_file := pjoin rel_media_path (file_stem ++ "-other.mp3")
    bass_file := pjoin rel_media_path (file_stem ++ "-bass.mp3")
    drums_file := pjoin rel_media_path (file_stem ++ "-drums.mp3") }

/-- `save_to_ext_storage` from `tasks.py`, restricted to its effect on the
row: each part file is read into a `ContentFile` whose name is the bare
filename `file_stem + '-{part}.mp3'`, and the row's file fields are set
to those content files. -/
def save_to_ext_storage (dynamic_mix : DynamicMixRow)
    (file_stem : String) : DynamicMixRow :=
  { dynamic_mix with
    vocals_file := file_stem ++ "-vocals.mp3"
    other_file := file_stem ++ "-other.mp3"
    bass_file := file_stem ++ "-bass.mp3"
    drums_file := file_stem ++ "-drums.mp3" }

/-- The `open(rel_path, 'rb')` events of the `save_to_ext_storage` loop. -/
def ext_storage_reads (rel_path_dir : String) (file_stem : String) : List Event :=
  parts_order.map fun part =>
    Event.readFile (pjoin rel_path_dir (file_stem ++ "-" ++ part ++ ".mp3"))

/-- `file_stem = slugify(dynamic_mix.formatted_name())`. -/
def dynamic_file_stem (slug : String → String) (row : DynamicMixRow) : String :=
  slug row.formatted_name

/-- `rel_media_path = os.path.join(settings.SEPARATE_DIR, dynamic_mix_id)`. -/
def dynamic_rel_media_path (env : DynamicEnv) (id : String) : String :=
  pjoin env.settings.separate_dir id

/-- `rel_path = os.path.join(settings.MEDIA_ROOT, rel_media_path)`
(equal to `directory`). -/
def dynamic_rel_path (env : DynamicEnv) (id : String) : String :=
  pjoin env.settings.media_root (dynamic_rel_media_path env id)

/-- The `except` clauses of `create_dynamic_mix` (same shape as
`staticHandle`). -/
def dynamicHandle (db : DynamicDb) (id : String) (row : DynamicMixRow)
    (tr : List Event) (e : Exc) : DynamicRun :=
  if e.isSoftTimeLimit then
    { db := db, trace := tr ++ [Event.log "Aborted!"], caught := some e, raised := none }
  else
    let row' := { row with status := TaskStatus.error, error := e.toStr }
    { db := db.save id row'
      trace := tr ++ [Event.dbSave "DynamicMix" id (some TaskStatus.error)]
      caught := some e
      raised := none }

/-- `create_dynamic_mix` from `tasks.py`, as a function of the environment,
the current table and the task argument. -/
def create_dynamic_mix (env : DynamicEnv) (db : DynamicDb) (dynamic_mix_id : String) :
    DynamicRun :=
  match db dynamic_mix_id with
  | none =>
    { db := db, trace := [Event.log "DynamicMix does not exist"],
      caught := none, raised := none }
  | some dynamic_mix0 =>
    let dynamic_mix := { dynamic_mix0 with status := TaskStatus.in_progress }
    let db := db.save dynamic_mix_id dynamic_mix
    let tr0 := [Event.dbSave "DynamicMix" dynamic_mix_id (some TaskStatus.in_progress)]
    let rel_media_path := dynamic_rel_media_path env dynamic_mix_id
    let file_stem := dynamic_file_stem env.slug dynamic_mix
    let rel_path := dynamic_rel_path env dynamic_mix_id
    let is_local := env.settings.is_local
    let path := if is_local then dynamic_mix.source_path else dynamic_mix.source_url
    let tr1 := tr0 ++ [Event.computePaths, Event.mkdir rel_path,
                       Event.extCall path rel_path]
    match env.sepResult with
    | some e => dynamicHandle db dynamic_mix_id dynamic_mix tr1 e
    | none =>
      if exists_all_parts env.fsExists rel_path then
        let tr2 := tr1 ++ [Event.checkExists rel_path true] ++
                   rename_all_parts rel_path file_stem
        let dynamic_mix := { dynamic_mix with status := TaskStatus.done }
        if is_local then
          let dynamic_mix := save_to_local_storage dynamic_mix rel_media_path file_stem
          { db := db.save dynamic_mix_id dynamic_mix
            trace := tr2 ++ [Event.dbSave "DynamicMix" dynamic_mix_id (some TaskStatus.done)]
            caught := none
            raised := none }
        else
          match env.copyResult with
          | some e => dynamicHandle db dynamic_mix_id dynamic_mix tr2 e
          | none =>
            let dynamic_mix := save_to_ext_storage dynamic_mix file_stem
            { db := db.save dynamic_mix_id dynamic_mix
              trace := tr2 ++ ext_storage_reads rel_path file_stem ++
                       [Event.dbSave "DynamicMix" dynamic_mix_id (some TaskStatus.done),
                        Event.rmtree rel_path]
              caught := none
              raised := none }
      else
        dynamicHandle db dynamic_mix_id dynamic_mix
          (tr1 ++ [Event.checkExists rel_path false])
          (Exc.generic "Error writing to file")

/-- Modelled from the spec: the `SourceFile` row field that `tasks.py`
writes (`api/models.py` is outside the analysed sources).  The row has no
status field; only its `file` reference is assigned. -/
structure SourceFileRow where
  file : String
deriving DecidableEq, Repr

/-- Modelled from the spec: the `YTAudioDownloadTask` row fields that
`tasks.py` writes. -/
structure FetchTaskRow where
  status : TaskStatus
  error : String
deriving DecidableEq, Repr

/-- A table of `SourceFile` rows, keyed by id. -/
abbrev SourceDb := String → Option SourceFileRow

/-- A table of `YTAudioDownloadTask` rows, keyed by id. -/
abbrev FetchDb := String → Option FetchTaskRow

/-- Point update of a `SourceFile` table, performed at `save()`. -/
def SourceDb.save (db : SourceDb) (id : String) (row : SourceFileRow) : SourceDb :=
  fun k => if k = id then some row else db k

/-- Point update of a `YTAudioDownloadTask` table, performed at `save()`. -/
def FetchDb.save (db : FetchDb) (id : String) (row : FetchTaskRow) : FetchDb :=
  fun k => if k = id then some row else db k

/-- Environment of one `fetch_youtube_audio` run: `file_ext` is the result
of the external `get_file_ext(link)`, `dlResult` the outcome of
`download_audio(link, rel_path)` (failures of the preceding path
computation and `mkdir` are subsumed here), `fsExists` the
`os.path.exists` oracle afterwards, and `copyResult` the outcome of the
`open`/`read` in the non-local copy branch. -/
structure FetchEnv where
  slug : String → String
  settings : Settings
  file_ext : String
  dlResult : Option Exc
  fsExists : String → Bool
  copyResult : Option Exc

/-- Result of one `fetch_youtube_audio` run (two tables are in scope). -/
structure FetchRun where
  sdb : SourceDb
  tdb : FetchDb
  trace : List Event
  caught : Option Exc
  raised : Option Exc

/-- `filename = slugify(artist + ' - ' + title, allow_unicode=True) + get_file_ext(link)`. -/
def fetch_filename (env : FetchEnv) (artist : String) (title : String) : String :=
  env.slug (artist ++ " - " ++ title) ++ env.file_ext

/-- `rel_media_path = os.path.join(settings.UPLOAD_DIR, str(source_file_id), filename)`. -/
def fetch_rel_media_path (env : FetchEnv) (source_file_id : String)
    (artist : String) (title : String) : String :=
  pjoin3 env.settings.upload_dir source_file_id (fetch_filename env artist title)

/-- `rel_path = os.path.join(settings.MEDIA_ROOT, rel_media_path)`. -/
def fetch_rel_path (env : FetchEnv) (source_file_id : String)
    (artist : String) (title : String) : String :=
  pjoin env.settings.media_root (fetch_rel_media_path env source_file_id artist title)

/-- `rel_dir_path = os.path.join(settings.MEDIA_ROOT, settings.UPLOAD_DIR, source_file_id)`
(equal to `directory`). -/
def fetch_rel_dir_path (env : FetchEnv) (source_file_id : String) : String :=
  pjoin3 env.settings.media_root env.settings.upload_dir source_file_id

/-- The two `except` clauses of `fetch_youtube_audio`:
`SoftTimeLimitExceeded` only prints `'Aborted!'`; the bare `Exception`
clause sets `status = ERROR` and `error = str(error)` on the fetch-task
row, saves it, and re-raises the exception. -/
def fetchHandle (sdb : SourceDb) (tdb : FetchDb) (fetch_task_id : String)
    (fetch_task : FetchTaskRow) (tr : List Event) (e : Exc) : FetchRun :=
  if e.isSoftTimeLimit then
    { sdb := sdb, tdb := tdb, trace := tr ++ [Event.log "Aborted!"],
      caught := some e, raised := none }
  else
    let fetch_task' := { fetch_task with status := TaskStatus.error, error := e.toStr }
    { sdb := sdb
      tdb := tdb.save fetch_task_id fetch_task'
      trace := tr ++ [Event.dbSave "YTAudioDownloadTask" fetch_task_id (some TaskStatus.error)]
      caught := some e
      raised := some e }

/-- `fetch_youtube_audio` from `tasks.py`, as a function of the
environment, the two tables and the task arguments.  Only the `SourceFile`
lookup is guarded; a missing `YTAudioDownloadTask` row raises
`DoesNotExist` outside any `try`. -/
def fetch_youtube_audio (env : FetchEnv) (sdb : SourceDb) (tdb : FetchDb)
    (source_file_id : String) (fetch_task_id : String)
    (artist : String) (title : String) (link : String) : FetchRun :=
  match sdb source_file_id with
  | none =>
    { sdb := sdb, tdb := tdb, trace := [Event.log "SourceFile does not exist"],
      caught := none, raised := none }
  | some source_file =>
    match tdb fetch_task_id with
    | none =>
      { sdb := sdb, tdb := tdb, trace := [],
        caught := none
        raised := some (Exc.doesNotExist "YTAudioDownloadTask matching query does not exist.") }
    | some fetch_task0 =>
      let fetch_task := { fetch_task0 with status := TaskStatus.in_progress }
      let tdb := tdb.save fetch_task_id fetch_task
      let tr0 := [Event.dbSave "YTAudioDownloadTask" fetch_task_id (some TaskStatus.in_progress)]
      let directory := fetch_rel_dir_path env source_file_id
      let filename := fetch_filename env artist title
      let rel_media_path := fetch_rel_media_path env source_file_id artist title
      let rel_path := fetch_rel_path env source_file_id artist title
      let is_local := env.settings.is_local
      let tr1 := tr0 ++ [Event.computePaths, Event.mkdir directory,
                         Event.extCall link rel_path]
      match env.dlResult with
      | some e => fetchHandle sdb tdb fetch_task_id fetch_task tr1 e
      | none =>
        if env.fsExists rel_path then
          let tr2 := tr1 ++ [Event.checkExists rel_path true]
          let fetch_task := { fetch_task with status := TaskStatus.done }
          if is_local then
            let source_file := { source_file with file := rel_media_path }
            { sdb := sdb.save source_file_id source_file
              tdb := tdb.save fetch_task_id fetch_task
              trace := tr2 ++ [Event.dbSave "YTAudioDownloadTask" fetch_task_id (some TaskStatus.done),
                               Event.dbSave "SourceFile" source_file_id none]
              caught := none
              raised := none }
          else
            match env.copyResult with
            | some e => fetchHandle sdb tdb fetch_task_id fetch_task tr2 e
            | none =>
              let source_file := { source_file with file := filename }
              let rel_dir_path := fetch_rel_dir_path env source_file_id
              { sdb := sdb.save source_file_id source_file
                tdb := tdb.save fetch_task_id fetch_task
                trace := tr2 ++ [Event.readFile rel_path, Event.removeFile rel_path,
                                 Event.rmdir rel_dir_path,
                                 Event.dbSave "YTAudioDownloadTask" fetch_task_id (some TaskStatus.done),
                                 Event.dbSave "SourceFile" source_file_id none]
                caught := none
                raised := none }
        else
          fetchHandle sdb tdb fetch_task_id fetch_task
            (tr1 ++ [Event.checkExists rel_path false])
            (Exc.generic "Error writing to file")

/-- An in-progress save of a job row. -/
def isSaveInProgress (e : Event) : Bool :=
  match e with
  | Event.dbSave _ _ (some TaskStatus.in_progress) => true
  | _ => false

/-- Path computation or the external separator/downloader call. -/
def isPathOrExtCall (e : Event) : Bool :=
  match e with
  | Event.computePaths => true
  | Event.extCall _ _ => true
  | _ => false

/-- The external separator/downloader call. -/
def isExtCallEv (e : Event) : Bool :=
  match e with
  | Event.extCall _ _ => true
  | _ => false

/-- The output-existence verification. -/
def isCheckEv (e : Event) : Bool :=
  match e with
  | Event.checkExists _ _ => true
  | _ => false

/-- A successful output-existence verification. -/
def isCheckTrueEv (e : Event) : Bool :=
  match e with
  | Event.checkExists _ true => true
  | _ => false

/-- A rename or a read of an output file for copying to storage. -/
def isRenameOrCopyEv (e : Event) : Bool :=
  match e with
  | Event.rename _ _ => true
  | Event.readFile _ => true
  | _ => false

/-- The job-row statuses saved during a trace, in order (`SourceFile`
saves, which carry no status, are skipped). -/
def statusSaves (tr : List Event) : List TaskStatus :=
  tr.filterMap fun e =>
    match e with
    | Event.dbSave _ _ (some st) => some st
    | _ => none

/- Concrete fixtures used by witnesses and counterexamples. -/

/-- A settings record with the local filesystem storage backend. -/
def localSettings : Settings :=
  { media_root := "media", separate_dir := "separate", upload_dir := "uploads",
    default_file_storage := "django.core.files.storage.FileSystemStorage" }

/-- A settings record with an external (S3) storage backend. -/
def extSettings : Settings :=
  { localSettings with default_file_storage := "storages.backends.s3boto3.S3Boto3Storage" }

/-- A stand-in for Django's `slugify`. -/
def testSlug : String → String := fun _ => "artist-title"

/-- A sample `StaticMix` row. -/
def testStaticRow : StaticMixRow :=
  { status := TaskStatus.queued, error := "", file := "", separator := "spleeter",
    random_shifts := 0, formatted_name := "Artist - Title",
    source_path := "media/uploads/s/track.mp3", source_url := "http://example.com/track.mp3",
    vocals := true, drums := false, bass := false, other := true }

/-- A `StaticMix` table holding `testStaticRow` at id `"a"`. -/
def testStaticDb : StaticDb := fun i => if i = "a" then some testStaticRow else none

/-- A sample `DynamicMix` row. -/
def testDynamicRow : DynamicMixRow :=
  { status := TaskStatus.queued, error := "", vocals_file := "", other_file := "",
    bass_file := "", drums_file := "", separator := "demucs", random_shifts := 3,
    formatted_name := "Artist - Title",
    source_path := "media/uploads/s/track.mp3", source_url := "http://example.com/track.mp3" }

/-- A `DynamicMix` table holding `testDynamicRow` at id `"d"`. -/
def testDynamicDb : DynamicDb := fun i => if i = "d" then some testDynamicRow else none

/-- A `SourceFile` table holding a row at id `"s"`. -/
def testSourceDb : SourceDb := fun i => if i = "s" then some { file := "" } else none

/-- A `YTAudioDownloadTask` table holding a fresh row at id `"t"`. -/
def testFetchDb : FetchDb :=
  fun i => if i = "t" then some { status := TaskStatus.queued, error := "" } else none

/-- A static-mix environment whose separator call raises the soft-timeout
signal. -/
def softStaticEnv : StaticEnv :=
  { slug := testSlug, settings := localSettings, sepResult := some Exc.softTimeLimit,
    fsExists := fun _ => true, copyResult := none }

/-- A fully successful local-storage static-mix environment. -/
def okLocalStaticEnv : StaticEnv :=
  { slug := testSlug, settings := localSettings, sepResult := none,
    fsExists := fun _ => true, copyResult := none }

/-- A fully successful external-storage dynamic-mix environment. -/
def okExtDynamicEnv : DynamicEnv :=
  { slug := testSlug, settings := extSettings, sepResult := none,
    fsExists := fun _ => true, copyResult := none }

/-- A fully successful local-storage dynamic-mix environment. -/
def okLocalDynamicEnv : DynamicEnv :=
  { slug := testSlug, settings := localSettings, sepResult := none,
    fsExists := fun _ => true, copyResult := none }

/-- A fully successful local-storage fetch environment. -/
def okLocalFetchEnv : FetchEnv :=
  { slug := testSlug, settings := localSettings, file_ext := ".webm", dlResult := none,
    fsExists := fun _ => true, copyResult := none }

/-- A fetch environment whose download raises the soft-timeout signal. -/
def softFetchEnv : FetchEnv :=
  { okLocalFetchEnv with dlResult := some Exc.softTimeLimit }

/-- C9: `get_separator` returns a `SpleeterSeparator` exactly when its
argument is the string `'spleeter'`; every other string, validated or not,
yields `DemucsSeparator(separator, random_shifts)`. -/
theorem c9_get_separator (s : String) (r : Nat) :
    (get_separator s r = Separator.spleeterSeparator ↔ s = "spleeter") ∧
    (s ≠ "spleeter" → get_separator s r = Separator.demucsSeparator s r) := by
  unfold get_separator
  by_cases h : s = "spleeter" <;> simp [h]

/-- Witness for C9 at the concrete names `"demucs"` and `"spleeter"`. -/
theorem c9_get_separator_witness :
    get_separator "demucs" 5 = Separator.demucsSeparator "demucs" 5 ∧
    get_separator "spleeter" 5 = Separator.spleeterSeparator :=
  ⟨(c9_get_separator "demucs" 5).2 (by decide),
   ((c9_get_separator "spleeter" 5).1).2 rfl⟩

/-- C8: a missing job record makes `create_static_mix` and
`create_dynamic_mix` return at once, with no exception, no database write
and no file event beyond a log line; in `fetch_youtube_audio` only a
missing `SourceFile` gets that early return, while a missing
`YTAudioDownloadTask` row lets the `DoesNotExist` exception escape with no
state change. -/
theorem c8_missing_record :
    (∀ (env : StaticEnv) (db : StaticDb) (id : String), db id = none →
      (create_static_mix env db id).db = db ∧
      (create_static_mix env db id).raised = none ∧
      (create_static_mix env db id).trace = [Event.log "StaticMix does not exist"]) ∧
    (∀ (env : DynamicEnv) (db : DynamicDb) (id : String), db id = none →
      (create_dynamic_mix env db id).db = db ∧
      (create_dynamic_mix env db id).raised = none ∧
      (create_dynamic_mix env db id).trace = [Event.log "DynamicMix does not exist"]) ∧
    (∀ (env : FetchEnv) (sdb : SourceDb) (tdb : FetchDb) (sid fid a t l : String),
      sdb sid = none →
      (fetch_youtube_audio env sdb tdb sid fid a t l).sdb = sdb ∧
      (fetch_youtube_audio env sdb tdb sid fid a t l).tdb = tdb ∧
      (fetch_youtube_audio env sdb tdb sid fid a t l).raised = none ∧
      (fetch_youtube_audio env sdb tdb sid fid a t l).trace =
        [Event.log "SourceFile does not exist"]) ∧
    (∀ (env : FetchEnv) (sdb : SourceDb) (tdb : FetchDb) (sid fid a t l : String)
      (sf : SourceFileRow), sdb sid = some sf → tdb fid = none →
      (fetch_youtube_audio env sdb tdb sid fid a t l).sdb = sdb ∧
      (fetch_youtube_audio env sdb tdb sid fid a t l).tdb = tdb ∧
      (fetch_youtube_audio env sdb tdb sid fid a t l).raised =
        some (Exc.doesNotExist "YTAudioDownloadTask matching query does not exist.") ∧
      (fetch_youtube_audio env sdb tdb sid fid a t l).trace = []) := by
  refine ⟨?_, ?_, ?_, ?_⟩
  · intro env db id h
    simp [create_static_mix, h]
  · intro env db id h
    simp [create_dynamic_mix, h]
  · intro env sdb tdb sid fid a t l h
    simp [fetch_youtube_audio, h]
  · intro env sdb tdb sid fid a t l sf hs ht
    simp [fetch_youtube_audio, hs, ht]

/-- Witness for C8: an empty static table at id `"z"` and a fetch run with
a present source row but a missing download-task row. -/
theorem c8_missing_record_witness :
    (create_static_mix okLocalStaticEnv testStaticDb "z").db = testStaticDb ∧
    (fetch_youtube_audio okLocalFetchEnv testSourceDb (fun _ => none)
        "s" "t" "A" "T" "L").raised =
      some (Exc.doesNotExist "YTAudioDownloadTask matching query does not exist.") :=
  ⟨(c8_missing_record.1 okLocalStaticEnv testStaticDb "z" (by decide)).1,
   (c8_missing_record.2.2.2 okLocalFetchEnv testSourceDb (fun _ => none)
      "s" "t" "A" "T" "L" { file := "" } (by decide) rfl).2.2.1⟩

/-- The events of a `create_static_mix` run up to and including the
external separator call, for an existing row. -/
def staticPrefixTrace (env : StaticEnv) (id : String) (row : StaticMixRow) : List Event :=
  [Event.dbSave "StaticMix" id (some TaskStatus.in_progress), Event.computePaths,
   Event.mkdir (static_rel_path_dir env id),
   Event.extCall (if env.settings.is_local then row.source_path else row.source_url)
     (static_rel_path env id row)]

/-- Case lemma: the separator call raises. -/
theorem static_run_sep_some (env : StaticEnv) (db : StaticDb) (id : String)
    (row : StaticMixRow) (e : Exc) (h : db id = some row)
    (hsep : env.sepResult = some e) :
    create_static_mix env db id =
      staticHandle (db.save id { row with status := TaskStatus.in_progress }) id
        { row with status := TaskStatus.in_progress }
        (staticPrefixTrace env id row) e := by
  simp [create_static_mix, h, hsep, staticPrefixTrace, static_rel_path, static_rel_media_path, static_filename, static_rel_path_dir, pjoin, pjoin3]

/-- Case lemma: the separator returns but the output file is missing. -/
theorem static_run_check_fail (env : StaticEnv) (db : StaticDb) (id : String)
    (row : StaticMixRow) (h : db id = some row) (hsep : env.sepResult = none)
    (hex : env.fsExists (static_rel_path env id row) = false) :
    create_static_mix env db id =
      staticHandle (db.save id { row with status := TaskStatus.in_progress }) id
        { row with status := TaskStatus.in_progress }
        (staticPrefixTrace env id row ++
          [Event.checkExists (static_rel_path env id row) false])
        (Exc.generic "Error writing to file") := by
  simp only [static_rel_path, static_rel_media_path, static_filename, static_rel_path_dir, pjoin, pjoin3] at hex
  simp [create_static_mix, h, hsep, hex, staticPrefixTrace, static_rel_path, static_rel_media_path, static_filename, static_rel_path_dir, pjoin, pjoin3]

/-- Case lemma: output exists, local storage backend. -/
theorem static_run_local_ok (env : StaticEnv) (db : StaticDb) (id : String)
    (row : StaticMixRow) (h : db id = some row) (hsep : env.sepResult = none)
    (hex : env.fsExists (static_rel_path env id row) = true)
    (hloc : env.settings.is_local = true) :
    create_static_mix env db id =
      { db := (db.save id { row with status := TaskStatus.in_progress }).save id
          { row with status := TaskStatus.done,
                     file := static_rel_media_path env id row }
        trace := staticPrefixTrace env id row ++
          [Event.checkExists (static_rel_path env id row) true,
           Event.dbSave "StaticMix" id (some TaskStatus.done)]
        caught := none
        raised := none } := by
  simp only [static_rel_path, static_rel_media_path, static_filename, static_rel_path_dir, pjoin, pjoin3] at hex
  simp [create_static_mix, h, hsep, hex, hloc, staticPrefixTrace, static_rel_path, static_rel_media_path, static_filename, static_rel_path_dir, pjoin, pjoin3]

/-- Case lemma: output exists, external backend, reading the file back
raises. -/
theorem static_run_ext_copy_fail (env : StaticEnv) (db : StaticDb) (id : String)
    (row : StaticMixRow) (e : Exc) (h : db id = some row)
    (hsep : env.sepResult = none)
    (hex : env.fsExists (static_rel_path env id row) = true)
    (hloc : env.settings.is_local = false)
    (hcopy : env.copyResult = some e) :
    create_static_mix env db id =
      staticHandle (db.save id { row with status := TaskStatus.in_progress }) id
        { row with status := TaskStatus.done }
        (staticPrefixTrace env id row ++
          [Event.checkExists (static_rel_path env id row) true]) e := by
  simp only [static_rel_path, static_rel_media_path, static_filename, static_rel_path_dir, pjoin, pjoin3] at hex
  simp [create_static_mix, h, hsep, hex, hloc, hcopy, staticPrefixTrace, static_rel_path, static_rel_media_path, static_filename, static_rel_path_dir, pjoin, pjoin3]

/-- Case lemma: output exists, external backend, copy succeeds. -/
theorem static_run_ext_ok (env : StaticEnv) (db : StaticDb) (id : String)
    (row : StaticMixRow) (h : db id = some row) (hsep : env.sepResult = none)
    (hex : env.fsExists (static_rel_path env id row) = true)
    (hloc : env.settings.is_local = false)
    (hcopy : env.copyResult = none) :
    create_static_mix env db id =
      { db := (db.save id { row with status := TaskStatus.in_progress }).save id
          { row with status := TaskStatus.done, file := static_filename env row }
        trace := staticPrefixTrace env id row ++
          [Event.checkExists (static_rel_path env id row) true,
           Event.readFile (static_rel_path env id row),
           Event.removeFile (static_rel_path env id row),
           Event.rmdir (static_rel_path_dir env id),
           Event.dbSave "StaticMix" id (some TaskStatus.done)]
        caught := none
        raised := none } := by
  simp only [static_rel_path, static_rel_media_path, static_filename, static_rel_path_dir, pjoin, pjoin3] at hex
  simp [create_static_mix, h, hsep, hex, hloc, hcopy, staticPrefixTrace, static_rel_path, static_rel_media_path, static_filename, static_rel_path_dir, pjoin, pjoin3]

/-- The events of a `create_dynamic_mix` run up to and including the
external separator call, for an existing row. -/
def dynamicPrefixTrace (env : DynamicEnv) (id : String) (row : DynamicMixRow) : List Event :=
  [Event.dbSave "DynamicMix" id (some TaskStatus.in_progress), Event.computePaths,
   Event.mkdir (dynamic_rel_path env id),
   Event.extCall (if env.settings.is_local then row.source_path else row.source_url)
     (dynamic_rel_path env id)]

/-- Case lemma: the separator call raises. -/
theorem dynamic_run_sep_some (env : DynamicEnv) (db : DynamicDb) (id : String)
    (row : DynamicMixRow) (e : Exc) (h : db id = some row)
    (hsep : env.sepResult = some e) :
    create_dynamic_mix env db id =
      dynamicHandle (db.save id { row with status := TaskStatus.in_progress }) id
        { row with status := TaskStatus.in_progress }
        (dynamicPrefixTrace env id row) e := by
  simp [create_dynamic_mix, h, hsep, dynamicPrefixTrace, dynamic_rel_path,
    dynamic_rel_media_path, pjoin, pjoin3]

/-- Case lemma: the separator returns but some part file is missing. -/
theorem dynamic_run_check_fail (env : DynamicEnv) (db : DynamicDb) (id : String)
    (row : DynamicMixRow) (h : db id = some row) (hsep : env.sepResult = none)
    (hex : exists_all_parts env.fsExists (dynamic_rel_path env id) = false) :
    create_dynamic_mix env db id =
      dynamicHandle (db.save id { row with status := TaskStatus.in_progress }) id
        { row with status := TaskStatus.in_progress }
        (dynamicPrefixTrace env id row ++
          [Event.checkExists (dynamic_rel_path env id) false])
        (Exc.generic "Error writing to file") := by
  simp only [dynamic_rel_path, dynamic_rel_media_path, pjoin, pjoin3] at hex
  simp [create_dynamic_mix, h, hsep, hex, dynamicPrefixTrace, dynamic_rel_path,
    dynamic_rel_media_path, pjoin, pjoin3]

/-- Case lemma: all parts exist, local storage backend. -/
theorem dynamic_run_local_ok (env : DynamicEnv) (db : DynamicDb) (id : String)
    (row : DynamicMixRow) (h : db id = some row) (hsep : env.sepResult = none)
    (hex : exists_all_parts env.fsExists (dynamic_rel_path env id) = true)
    (hloc : env.settings.is_local = true) :
    create_dynamic_mix env db id =
      { db := (db.save id { row with status := TaskStatus.in_progress }).save id
          (save_to_local_storage { row with status := TaskStatus.done }
            (dynamic_rel_media_path env id) (dynamic_file_stem env.slug row))
        trace := dynamicPrefixTrace env id row ++
          [Event.checkExists (dynamic_rel_path env id) true] ++
          rename_all_parts (dynamic_rel_path env id) (dynamic_file_stem env.slug row) ++
          [Event.dbSave "DynamicMix" id (some TaskStatus.done)]
        caught := none
        raised := none } := by
  simp only [dynamic_rel_path, dynamic_rel_media_path, pjoin, pjoin3] at hex
  simp [create_dynamic_mix, h, hsep, hex, hloc, dynamicPrefixTrace, dynamic_rel_path,
    dynamic_rel_media_path, dynamic_file_stem, save_to_local_storage,
    rename_all_parts, parts_order, pjoin, pjoin3]

/-- Case lemma: all parts exist, external backend, reading a part back
raises. -/
theorem dynamic_run_ext_copy_fail (env : DynamicEnv) (db : DynamicDb) (id : String)
    (row : DynamicMixRow) (e : Exc) (h : db id = some row)
    (hsep : env.sepResult = none)
    (hex : exists_all_parts env.fsExists (dynamic_rel_path env id) = true)
    (hloc : env.settings.is_local = false)
    (hcopy : env.copyResult = some e) :
    create_dynamic_mix env db id =
      dynamicHandle (db.save id { row with status := TaskStatus.in_progress }) id
        { row with status := TaskStatus.done }
        (dynamicPrefixTrace env id row ++
          [Event.checkExists (dynamic_rel_path env id) true] ++
          rename_all_parts (dynamic_rel_path env id) (dynamic_file_stem env.slug row))
        e := by
  simp only [dynamic_rel_path, dynamic_rel_media_path, pjoin, pjoin3] at hex
  simp [create_dynamic_mix, h, hsep, hex, hloc, hcopy, dynamicPrefixTrace,
    dynamic_rel_path, dynamic_rel_media_path, dynamic_file_stem,
    rename_all_parts, parts_order, pjoin, pjoin3]

/-- Case lemma: all parts exist, external backend, copy succeeds. -/
theorem dynamic_run_ext_ok (env : DynamicEnv) (db : DynamicDb) (id : String)
    (row : DynamicMixRow) (h : db id = some row) (hsep : env.sepResult = none)
    (hex : exists_all_parts env.fsExists (dynamic_rel_path env id) = true)
    (hloc : env.settings.is_local = false)
    (hcopy : env.copyResult = none) :
    create_dynamic_mix env db id =
      { db := (db.save id { row with status := TaskStatus.in_progress }).save id
          (save_to_ext_storage { row with status := TaskStatus.done }
            (dynamic_file_stem env.slug row))
        trace := dynamicPrefixTrace env id row ++
          [Event.checkExists (dynamic_rel_path env id) true] ++
          rename_all_parts (dynamic_rel_path env id) (dynamic_file_stem env.slug row) ++
          ext_storage_reads (dynamic_rel_path env id) (dynamic_file_stem env.slug row) ++
          [Event.dbSave "DynamicMix" id (some TaskStatus.done),
           Event.rmtree (dynamic_rel_path env id)]
        caught := none
        raised := none } := by
  simp only [dynamic_rel_path, dynamic_rel_media_path, pjoin, pjoin3] at hex
  simp [create_dynamic_mix, h, hsep, hex, hloc, hcopy, dynamicPrefixTrace,
    dynamic_rel_path, dynamic_rel_media_path, dynamic_file_stem,
    save_to_ext_storage, rename_all_parts, ext_storage_reads, parts_order,
    pjoin, pjoin3]

/-- The events of a `fetch_youtube_audio` run up to and including the
external downloader call, for existing rows. -/
def fetchPrefixTrace (env : FetchEnv) (sid : String) (fid : String)
    (artist title link : String) : List Event :=
  [Event.dbSave "YTAudioDownloadTask" fid (some TaskStatus.in_progress),
   Event.computePaths, Event.mkdir (fetch_rel_dir_path env sid),
   Event.extCall link (fetch_rel_path env sid artist title)]

/-- Case lemma: the download call raises. -/
theorem fetch_run_dl_some (env : FetchEnv) (sdb : SourceDb) (tdb : FetchDb)
    (sid fid artist title link : String) (sf : SourceFileRow) (ft : FetchTaskRow)
    (e : Exc) (hs : sdb sid = some sf) (ht : tdb fid = some ft)
    (hdl : env.dlResult = some e) :
    fetch_youtube_audio env sdb tdb sid fid artist title link =
      fetchHandle sdb (tdb.save fid { ft with status := TaskStatus.in_progress }) fid
        { ft with status := TaskStatus.in_progress }
        (fetchPrefixTrace env sid fid artist title link) e := by
  simp [fetch_youtube_audio, hs, ht, hdl, fetchPrefixTrace]

/-- Case lemma: the download returns but the output file is missing. -/
theorem fetch_run_check_fail (env : FetchEnv) (sdb : SourceDb) (tdb : FetchDb)
    (sid fid artist title link : String) (sf : SourceFileRow) (ft : FetchTaskRow)
    (hs : sdb sid = some sf) (ht : tdb fid = some ft) (hdl : env.dlResult = none)
    (hex : env.fsExists (fetch_rel_path env sid artist title) = false) :
    fetch_youtube_audio env sdb tdb sid fid artist title link =
      fetchHandle sdb (tdb.save fid { ft with status := TaskStatus.in_progress }) fid
        { ft with status := TaskStatus.in_progress }
        (fetchPrefixTrace env sid fid artist title link ++
          [Event.checkExists (fetch_rel_path env sid artist title) false])
        (Exc.generic "Error writing to file") := by
  simp [fetch_youtube_audio, hs, ht, hdl, hex, fetchPrefixTrace]

/-- Case lemma: output exists, local storage backend. -/
theorem fetch_run_local_ok (env : FetchEnv) (sdb : SourceDb) (tdb : FetchDb)
    (sid fid artist title link : String) (sf : SourceFileRow) (ft : FetchTaskRow)
    (hs : sdb sid = some sf) (ht : tdb fid = some ft) (hdl : env.dlResult = none)
    (hex : env.fsExists (fetch_rel_path env sid artist title) = true)
    (hloc : env.settings.is_local = true) :
    fetch_youtube_audio env sdb tdb sid fid artist title link =
      { sdb := sdb.save sid { sf with file := fetch_rel_media_path env sid artist title }
        tdb := (tdb.save fid { ft with status := TaskStatus.in_progress }).save fid
          { ft with status := TaskStatus.done }
        trace := fetchPrefixTrace env sid fid artist title link ++
          [Event.checkExists (fetch_rel_path env sid artist title) true,
           Event.dbSave "YTAudioDownloadTask" fid (some TaskStatus.done),
           Event.dbSave "SourceFile" sid none]
        caught := none
        raised := none } := by
  simp [fetch_youtube_audio, hs, ht, hdl, hex, hloc, fetchPrefixTrace]

/-- Case lemma: output exists, external backend, reading the file back
raises. -/
theorem fetch_run_ext_copy_fail (env : FetchEnv) (sdb : SourceDb) (tdb : FetchDb)
    (sid fid artist title link : String) (sf : SourceFileRow) (ft : FetchTaskRow)
    (e : Exc) (hs : sdb sid = some sf) (ht : tdb fid = some ft)
    (hdl : env.dlResult = none)
    (hex : env.fsExists (fetch_rel_path env sid artist title) = true)
    (hloc : env.settings.is_local = false)
    (hcopy : env.copyResult = some e) :
    fetch_youtube_audio env sdb tdb sid fid artist title link =
      fetchHandle sdb (tdb.save fid { ft with status := TaskStatus.in_progress }) fid
        { ft with status := TaskStatus.done }
        (fetchPrefixTrace env sid fid artist title link ++
          [Event.checkExists (fetch_rel_path env sid artist title) true]) e := by
  simp [fetch_youtube_audio, hs, ht, hdl, hex, hloc, hcopy, fetchPrefixTrace]

/-- Case lemma: output exists, external backend, copy succeeds. -/
theorem fetch_run_ext_ok (env : FetchEnv) (sdb : SourceDb) (tdb : FetchDb)
    (sid fid artist title link : String) (sf : SourceFileRow) (ft : FetchTaskRow)
    (hs : sdb sid = some sf) (ht : tdb fid = some ft) (hdl : env.dlResult = none)
    (hex : env.fsExists (fetch_rel_path env sid artist title) = true)
    (hloc : env.settings.is_local = false)
    (hcopy : env.copyResult = none) :
    fetch_youtube_audio env sdb tdb sid fid artist title link =
      { sdb := sdb.save sid { sf with file := fetch_filename env artist title }
        tdb := (tdb.save fid { ft with status := TaskStatus.in_progress }).save fid
          { ft with status := TaskStatus.done }
        trace := fetchPrefixTrace env sid fid artist title link ++
          [Event.checkExists (fetch_rel_path env sid artist title) true,
           Event.readFile (fetch_rel_path env sid artist title),
           Event.removeFile (fetch_rel_path env sid artist title),
           Event.rmdir (fetch_rel_dir_path env sid),
           Event.dbSave "YTAudioDownloadTask" fid (some TaskStatus.done),
           Event.dbSave "SourceFile" sid none]
        caught := none
        raised := none } := by
  simp [fetch_youtube_audio, hs, ht, hdl, hex, hloc, hcopy, fetchPrefixTrace]

/-- On a caught soft-timeout, `create_static_mix` leaves the table at the
in-progress save, re-raises nothing, saves no further status and ends by
logging. -/
theorem static_soft_only_logs (env : StaticEnv) (db : StaticDb) (id : String)
    (row : StaticMixRow) (h : db id = some row)
    (hc : (create_static_mix env db id).caught = some Exc.softTimeLimit) :
    (create_static_mix env db id).db =
      db.save id { row with status := TaskStatus.in_progress } ∧
    (create_static_mix env db id).raised = none ∧
    statusSaves (create_static_mix env db id).trace = [TaskStatus.in_progress] ∧
    ∃ tr', (create_static_mix env db id).trace = tr' ++ [Event.log "Aborted!"] := by
  rcases hsep : env.sepResult with _ | e
  · rcases hex : env.fsExists (static_rel_path env id row) with _ | _
    · rw [static_run_check_fail env db id row h hsep hex] at hc
      simp [staticHandle, Exc.isSoftTimeLimit] at hc
    · rcases hloc : env.settings.is_local with _ | _
      · rcases hcopy : env.copyResult with _ | e
        · rw [static_run_ext_ok env db id row h hsep hex hloc hcopy] at hc
          simp at hc
        · rw [static_run_ext_copy_fail env db id row e h hsep hex hloc hcopy] at hc ⊢
          simp only [staticHandle, apply_ite, ite_self] at hc
          obtain rfl : e = Exc.softTimeLimit := by
            rcases e <;> simp_all [staticHandle, Exc.isSoftTimeLimit]
          refine ⟨?_, ?_, ?_,
            ⟨staticPrefixTrace env id row ++
              [Event.checkExists (static_rel_path env id row) true], by
                simp [staticHandle, Exc.isSoftTimeLimit]⟩⟩ <;>
            simp [staticHandle, Exc.isSoftTimeLimit, statusSaves, staticPrefixTrace]
      · rw [static_run_local_ok env db id row h hsep hex hloc] at hc
        simp at hc
  · rw [static_run_sep_some env db id row e h hsep] at hc ⊢
    obtain rfl : e = Exc.softTimeLimit := by
      rcases e <;> simp_all [staticHandle, Exc.isSoftTimeLimit]
    refine ⟨?_, ?_, ?_,
      ⟨staticPrefixTrace env id row, by
        simp [staticHandle, Exc.isSoftTimeLimit]⟩⟩ <;>
      simp [staticHandle, Exc.isSoftTimeLimit, statusSaves, staticPrefixTrace]

/-- On a caught soft-timeout, `create_dynamic_mix` leaves the table at the
in-progress save, re-raises nothing, saves no further status and ends by
logging. -/
theorem dynamic_soft_only_logs (env : DynamicEnv) (db : DynamicDb) (id : String)
    (row : DynamicMixRow) (h : db id = some row)
    (hc : (create_dynamic_mix env db id).caught = some Exc.softTimeLimit) :
    (create_dynamic_mix env db id).db =
      db.save id { row with status := TaskStatus.in_progress } ∧
    (create_dynamic_mix env db id).raised = none ∧
    statusSaves (create_dynamic_mix env db id).trace = [TaskStatus.in_progress] ∧
    ∃ tr', (create_dynamic_mix env db id).trace = tr' ++ [Event.log "Aborted!"] := by
  rcases hsep : env.sepResult with _ | e
  · rcases hex : exists_all_parts env.fsExists (dynamic_rel_path env id) with _ | _
    · rw [dynamic_run_check_fail env db id row h hsep hex] at hc
      simp [dynamicHandle, Exc.isSoftTimeLimit] at hc
    · rcases hloc : env.settings.is_local with _ | _
      · rcases hcopy : env.copyResult with _ | e
        · rw [dynamic_run_ext_ok env db id row h hsep hex hloc hcopy] at hc
          simp at hc
        · rw [dynamic_run_ext_copy_fail env db id row e h hsep hex hloc hcopy] at hc ⊢
          simp only [dynamicHandle, apply_ite, ite_self] at hc
          obtain rfl : e = Exc.softTimeLimit := by
            rcases e <;> simp_all [dynamicHandle, Exc.isSoftTimeLimit]
          refine ⟨?_, ?_, ?_,
            ⟨dynamicPrefixTrace env id row ++
              [Event.checkExists (dynamic_rel_path env id) true] ++
              rename_all_parts (dynamic_rel_path env id) (dynamic_file_stem env.slug row), by
                simp [dynamicHandle, Exc.isSoftTimeLimit]⟩⟩ <;>
            simp [dynamicHandle, Exc.isSoftTimeLimit, statusSaves, dynamicPrefixTrace,
              rename_all_parts, parts_order]
      · rw [dynamic_run_local_ok env db id row h hsep hex hloc] at hc
        simp at hc
  · rw [dynamic_run_sep_some env db id row e h hsep] at hc ⊢
    obtain rfl : e = Exc.softTimeLimit := by
      rcases e <;> simp_all [dynamicHandle, Exc.isSoftTimeLimit]
    refine ⟨?_, ?_, ?_,
      ⟨dynamicPrefixTrace env id row, by
        simp [dynamicHandle, Exc.isSoftTimeLimit]⟩⟩ <;>
      simp [dynamicHandle, Exc.isSoftTimeLimit, statusSaves, dynamicPrefixTrace]

/-- On a caught soft-timeout, `fetch_youtube_audio` leaves both tables at
the in-progress save, re-raises nothing, saves no further status and ends
by logging. -/
theorem fetch_soft_only_logs (env : FetchEnv) (sdb : SourceDb) (tdb : FetchDb)
    (sid fid artist title link : String) (sf : SourceFileRow) (ft : FetchTaskRow)
    (hs : sdb sid = some sf) (ht : tdb fid = some ft)
    (hc : (fetch_youtube_audio env sdb tdb sid fid artist title link).caught =
      some Exc.softTimeLimit) :
    (fetch_youtube_audio env sdb tdb sid fid artist title link).sdb = sdb ∧
    (fetch_youtube_audio env sdb tdb sid fid artist title link).tdb =
      tdb.save fid { ft with status := TaskStatus.in_progress } ∧
    (fetch_youtube_audio env sdb tdb sid fid artist title link).raised = none ∧
    statusSaves (fetch_youtube_audio env sdb tdb sid fid artist title link).trace =
      [TaskStatus.in_progress] ∧
    ∃ tr', (fetch_youtube_audio env sdb tdb sid fid artist title link).trace =
      tr' ++ [Event.log "Aborted!"] := by
  rcases hdl : env.dlResult with _ | e
  · rcases hex : env.fsExists (fetch_rel_path env sid artist title) with _ | _
    · rw [fetch_run_check_fail env sdb tdb sid fid artist title link sf ft hs ht hdl hex] at hc
      simp [fetchHandle, Exc.isSoftTimeLimit] at hc
    · rcases hloc : env.settings.is_local with _ | _
      · rcases hcopy : env.copyResult with _ | e
        · rw [fetch_run_ext_ok env sdb tdb sid fid artist title link sf ft hs ht hdl hex
            hloc hcopy] at hc
          simp at hc
        · rw [fetch_run_ext_copy_fail env sdb tdb sid fid artist title link sf ft e hs ht
            hdl hex hloc hcopy] at hc ⊢
          simp only [fetchHandle, apply_ite, ite_self] at hc
          obtain rfl : e = Exc.softTimeLimit := by
            rcases e <;> simp_all [fetchHandle, Exc.isSoftTimeLimit]
          refine ⟨?_, ?_, ?_, ?_,
            ⟨fetchPrefixTrace env sid fid artist title link ++
              [Event.checkExists (fetch_rel_path env sid artist title) true], by
                simp [fetchHandle, Exc.isSoftTimeLimit]⟩⟩ <;>
            simp [fetchHandle, Exc.isSoftTimeLimit, statusSaves, fetchPrefixTrace]
      · rw [fetch_run_local_ok env sdb tdb sid fid artist title link sf ft hs ht hdl hex
          hloc] at hc
        simp at hc
  · rw [fetch_run_dl_some env sdb tdb sid fid artist title link sf ft e hs ht hdl] at hc ⊢
    obtain rfl : e = Exc.softTimeLimit := by
      rcases e <;> simp_all [fetchHandle, Exc.isSoftTimeLimit]
    refine ⟨?_, ?_, ?_, ?_,
      ⟨fetchPrefixTrace env sid fid artist title link, by
        simp [fetchHandle, Exc.isSoftTimeLimit]⟩⟩ <;>
      simp [fetchHandle, Exc.isSoftTimeLimit, statusSaves, fetchPrefixTrace]

/-- C5: when a task catches the soft-timeout signal it only logs
`'Aborted!'` and does nothing else: no status or error is written past the
in-progress save, no further save happens, and nothing is re-raised, in all
three tasks. -/
theorem c5_soft_timeout_only_logs :
    (∀ (env : StaticEnv) (db : StaticDb) (id : String) (row : StaticMixRow),
      db id = some row →
      (create_static_mix env db id).caught = some Exc.softTimeLimit →
      (create_static_mix env db id).db =
        db.save id { row with status := TaskStatus.in_progress } ∧
      (create_static_mix env db id).raised = none ∧
      statusSaves (create_static_mix env db id).trace = [TaskStatus.in_progress] ∧
      ∃ tr', (create_static_mix env db id).trace = tr' ++ [Event.log "Aborted!"]) ∧
    (∀ (env : DynamicEnv) (db : DynamicDb) (id : String) (row : DynamicMixRow),
      db id = some row →
      (create_dynamic_mix env db id).caught = some Exc.softTimeLimit →
      (create_dynamic_mix env db id).db =
        db.save id { row with status := TaskStatus.in_progress } ∧
      (create_dynamic_mix env db id).raised = none ∧
      statusSaves (create_dynamic_mix env db id).trace = [TaskStatus.in_progress] ∧
      ∃ tr', (create_dynamic_mix env db id).trace = tr' ++ [Event.log "Aborted!"]) ∧
    (∀ (env : FetchEnv) (sdb : SourceDb) (tdb : FetchDb)
      (sid fid artist title link : String) (sf : SourceFileRow) (ft : FetchTaskRow),
      sdb sid = some sf → tdb fid = some ft →
      (fetch_youtube_audio env sdb tdb sid fid artist title link).caught =
        some Exc.softTimeLimit →
      (fetch_youtube_audio env sdb tdb sid fid artist title link).sdb = sdb ∧
      (fetch_youtube_audio env sdb tdb sid fid artist title link).tdb =
        tdb.save fid { ft with status := TaskStatus.in_progress } ∧
      (fetch_youtube_audio env sdb tdb sid fid artist title link).raised = none ∧
      statusSaves (fetch_youtube_audio env sdb tdb sid fid artist title link).trace =
        [TaskStatus.in_progress] ∧
      ∃ tr', (fetch_youtube_audio env sdb tdb sid fid artist title link).trace =
        tr' ++ [Event.log "Aborted!"]) :=
  ⟨fun env db id row h hc => static_soft_only_logs env db id row h hc,
   fun env db id row h hc => dynamic_soft_only_logs env db id row h hc,
   fun env sdb tdb sid fid a t l sf ft hs ht hc =>
     fetch_soft_only_logs env sdb tdb sid fid a t l sf ft hs ht hc⟩

/-- Witness for C5: a concrete static-mix run and a concrete fetch run
whose external call raises the soft-timeout signal. -/
theorem c5_soft_timeout_only_logs_witness :
    (create_static_mix softStaticEnv testStaticDb "a").raised = none ∧
    statusSaves (create_static_mix softStaticEnv testStaticDb "a").trace =
      [TaskStatus.in_progress] ∧
    (fetch_youtube_audio softFetchEnv testSourceDb testFetchDb "s" "t" "A" "T" "L").raised =
      none :=
  ⟨(c5_soft_timeout_only_logs.1 softStaticEnv testStaticDb "a" testStaticRow
      (by decide) (by decide)).2.1,
   (c5_soft_timeout_only_logs.1 softStaticEnv testStaticDb "a" testStaticRow
      (by decide) (by decide)).2.2.1,
   (c5_soft_timeout_only_logs.2.2 softFetchEnv testSourceDb testFetchDb "s" "t" "A" "T" "L"
      { file := "" } { status := TaskStatus.queued, error := "" }
      (by decide) (by decide) (by decide)).2.2.1⟩

/-- Looking up a table right after saving a row yields that row. -/
theorem staticDb_save_self (db : StaticDb) (id : String) (row : StaticMixRow) :
    db.save id row id = some row := by
  simp [StaticDb.save]

/-- Looking up a dynamic table right after saving a row yields that row. -/
theorem dynamicDb_save_self (db : DynamicDb) (id : String) (row : DynamicMixRow) :
    db.save id row id = some row := by
  simp [DynamicDb.save]

/-- Looking up a fetch-task table right after saving a row yields that row. -/
theorem fetchDb_save_self (db : FetchDb) (id : String) (row : FetchTaskRow) :
    db.save id row id = some row := by
  simp [FetchDb.save]

/-- Looking up a source-file table right after saving a row yields that row. -/
theorem sourceDb_save_self (db : SourceDb) (id : String) (row : SourceFileRow) :
    db.save id row id = some row := by
  simp [SourceDb.save]

/-- The non-soft-timeout branch of the static/dynamic `except` clauses. -/
theorem staticHandle_not_soft (db : StaticDb) (id : String) (row : StaticMixRow)
    (tr : List Event) (e : Exc) (hns : e.isSoftTimeLimit = false) :
    staticHandle db id row tr e =
      { db := db.save id { row with status := TaskStatus.error, error := e.toStr }
        trace := tr ++ [Event.dbSave "StaticMix" id (some TaskStatus.error)]
        caught := some e
        raised := none } := by
  simp [staticHandle, hns]

/-- The handler's `caught` field is always the handled exception. -/
theorem staticHandle_caught (db : StaticDb) (id : String) (row : StaticMixRow)
    (tr : List Event) (e : Exc) :
    (staticHandle db id row tr e).caught = some e := by
  rcases he : e.isSoftTimeLimit <;> simp [staticHandle, he]

/-- The non-soft-timeout branch of the dynamic handler. -/
theorem dynamicHandle_not_soft (db : DynamicDb) (id : String) (row : DynamicMixRow)
    (tr : List Event) (e : Exc) (hns : e.isSoftTimeLimit = false) :
    dynamicHandle db id row tr e =
      { db := db.save id { row with status := TaskStatus.error, error := e.toStr }
        trace := tr ++ [Event.dbSave "DynamicMix" id (some TaskStatus.error)]
        caught := some e
        raised := none } := by
  simp [dynamicHandle, hns]

/-- The dynamic handler's `caught` field is always the handled exception. -/
theorem dynamicHandle_caught (db : DynamicDb) (id : String) (row : DynamicMixRow)
    (tr : List Event) (e : Exc) :
    (dynamicHandle db id row tr e).caught = some e := by
  rcases he : e.isSoftTimeLimit <;> simp [dynamicHandle, he]

/-- The non-soft-timeout branch of the fetch handler: record, save, and
re-raise. -/
theorem fetchHandle_not_soft (sdb : SourceDb) (tdb : FetchDb) (fid : String)
    (ft : FetchTaskRow) (tr : List Event) (e : Exc)
    (hns : e.isSoftTimeLimit = false) :
    fetchHandle sdb tdb fid ft tr e =
      { sdb := sdb
        tdb := tdb.save fid { ft with status := TaskStatus.error, error := e.toStr }
        trace := tr ++ [Event.dbSave "YTAudioDownloadTask" fid (some TaskStatus.error)]
        caught := some e
        raised := some e } := by
  simp [fetchHandle, hns]

/-- The fetch handler's `caught` field is always the handled exception. -/
theorem fetchHandle_caught (sdb : SourceDb) (tdb : FetchDb) (fid : String)
    (ft : FetchTaskRow) (tr : List Event) (e : Exc) :
    (fetchHandle sdb tdb fid ft tr e).caught = some e := by
  rcases he : e.isSoftTimeLimit <;> simp [fetchHandle, he]

/-- On any caught non-soft-timeout exception, `create_static_mix` records
`status = ERROR`, `error = str(e)` on its row and the error save is the
last event. -/
theorem static_error_recorded (env : StaticEnv) (db : StaticDb) (id : String)
    (row : StaticMixRow) (e : Exc) (h : db id = some row)
    (hc : (create_static_mix env db id).caught = some e)
    (hns : e.isSoftTimeLimit = false) :
    (∃ row', (create_static_mix env db id).db id = some row' ∧
      row'.status = TaskStatus.error ∧ row'.error = e.toStr) ∧
    ∃ tr', (create_static_mix env db id).trace =
      tr' ++ [Event.dbSave "StaticMix" id (some TaskStatus.error)] := by
  rcases hsep : env.sepResult with _ | e₀
  · rcases hex : env.fsExists (static_rel_path env id row) with _ | _
    · rw [static_run_check_fail env db id row h hsep hex] at hc ⊢
      rw [staticHandle_caught] at hc
      obtain rfl : Exc.generic "Error writing to file" = e := by
        simpa using hc
      rw [staticHandle_not_soft _ _ _ _ _ hns]
      exact ⟨⟨_, staticDb_save_self _ _ _, rfl, rfl⟩, _, rfl⟩
    · rcases hloc : env.settings.is_local with _ | _
      · rcases hcopy : env.copyResult with _ | e₁
        · rw [static_run_ext_ok env db id row h hsep hex hloc hcopy] at hc
          simp at hc
        · rw [static_run_ext_copy_fail env db id row e₁ h hsep hex hloc hcopy] at hc ⊢
          rw [staticHandle_caught] at hc
          obtain rfl : e₁ = e := by simpa using hc
          rw [staticHandle_not_soft _ _ _ _ _ hns]
          exact ⟨⟨_, staticDb_save_self _ _ _, rfl, rfl⟩, _, rfl⟩
      · rw [static_run_local_ok env db id row h hsep hex hloc] at hc
        simp at hc
  · rw [static_run_sep_some env db id row e₀ h hsep] at hc ⊢
    rw [staticHandle_caught] at hc
    obtain rfl : e₀ = e := by simpa using hc
    rw [staticHandle_not_soft _ _ _ _ _ hns]
    exact ⟨⟨_, staticDb_save_self _ _ _, rfl, rfl⟩, _, rfl⟩

/-- On any caught non-soft-timeout exception, `create_dynamic_mix` records
`status = ERROR`, `error = str(e)` on its row and the error save is the
last event. -/
theorem dynamic_error_recorded (env : DynamicEnv) (db : DynamicDb) (id : String)
    (row : DynamicMixRow) (e : Exc) (h : db id = some row)
    (hc : (create_dynamic_mix env db id).caught = some e)
    (hns : e.isSoftTimeLimit = false) :
    (∃ row', (create_dynamic_mix env db id).db id = some row' ∧
      row'.status = TaskStatus.error ∧ row'.error = e.toStr) ∧
    ∃ tr', (create_dynamic_mix env db id).trace =
      tr' ++ [Event.dbSave "DynamicMix" id (some TaskStatus.error)] := by
  rcases hsep : env.sepResult with _ | e₀
  · rcases hex : exists_all_parts env.fsExists (dynamic_rel_path env id) with _ | _
    · rw [dynamic_run_check_fail env db id row h hsep hex] at hc ⊢
      rw [dynamicHandle_caught] at hc
      obtain rfl : Exc.generic "Error writing to file" = e := by
        simpa using hc
      rw [dynamicHandle_not_soft _ _ _ _ _ hns]
      exact ⟨⟨_, dynamicDb_save_self _ _ _, rfl, rfl⟩, _, rfl⟩
    · rcases hloc : env.settings.is_local with _ | _
      · rcases hcopy : env.copyResult with _ | e₁
        · rw [dynamic_run_ext_ok env db id row h hsep hex hloc hcopy] at hc
          simp at hc
        · rw [dynamic_run_ext_copy_fail env db id row e₁ h hsep hex hloc hcopy] at hc ⊢
          rw [dynamicHandle_caught] at hc
          obtain rfl : e₁ = e := by simpa using hc
          rw [dynamicHandle_not_soft _ _ _ _ _ hns]
          exact ⟨⟨_, dynamicDb_save_self _ _ _, rfl, rfl⟩, _, rfl⟩
      · rw [dynamic_run_local_ok env db id row h hsep hex hloc] at hc
        simp at hc
  · rw [dynamic_run_sep_some env db id row e₀ h hsep] at hc ⊢
    rw [dynamicHandle_caught] at hc
    obtain rfl : e₀ = e := by simpa using hc
    rw [dynamicHandle_not_soft _ _ _ _ _ hns]
    exact ⟨⟨_, dynamicDb_save_self _ _ _, rfl, rfl⟩, _, rfl⟩

/-- On any caught non-soft-timeout exception, `fetch_youtube_audio` records
`status = ERROR`, `error = str(e)` on the fetch-task row, the error save is
the last event, and the exception is re-raised. -/
theorem fetch_error_recorded (env : FetchEnv) (sdb : SourceDb) (tdb : FetchDb)
    (sid fid artist title link : String) (sf : SourceFileRow) (ft : FetchTaskRow)
    (e : Exc) (hs : sdb sid = some sf) (ht : tdb fid = some ft)
    (hc : (fetch_youtube_audio env sdb tdb sid fid artist title link).caught = some e)
    (hns : e.isSoftTimeLimit = false) :
    (∃ row', (fetch_youtube_audio env sdb tdb sid fid artist title link).tdb fid =
        some row' ∧
      row'.status = TaskStatus.error ∧ row'.error = e.toStr) ∧
    (∃ tr', (fetch_youtube_audio env sdb tdb sid fid artist title link).trace =
      tr' ++ [Event.dbSave "YTAudioDownloadTask" fid (some TaskStatus.error)]) ∧
    (fetch_youtube_audio env sdb tdb sid fid artist title link).raised = some e := by
  rcases hdl : env.dlResult with _ | e₀
  · rcases hex : env.fsExists (fetch_rel_path env sid artist title) with _ | _
    · rw [fetch_run_check_fail env sdb tdb sid fid artist title link sf ft hs ht hdl hex]
        at hc ⊢
      rw [fetchHandle_caught] at hc
      obtain rfl : Exc.generic "Error writing to file" = e := by
        simpa using hc
      rw [fetchHandle_not_soft _ _ _ _ _ _ hns]
      exact ⟨⟨_, fetchDb_save_self _ _ _, rfl, rfl⟩, ⟨_, rfl⟩, rfl⟩
    · rcases hloc : env.settings.is_local with _ | _
      · rcases hcopy : env.copyResult with _ | e₁
        · rw [fetch_run_ext_ok env sdb tdb sid fid artist title link sf ft hs ht hdl hex
            hloc hcopy] at hc
          simp at hc
        · rw [fetch_run_ext_copy_fail env sdb tdb sid fid artist title link sf ft e₁ hs ht
            hdl hex hloc hcopy] at hc ⊢
          rw [fetchHandle_caught] at hc
          obtain rfl : e₁ = e := by simpa using hc
          rw [fetchHandle_not_soft _ _ _ _ _ _ hns]
          exact ⟨⟨_, fetchDb_save_self _ _ _, rfl, rfl⟩, ⟨_, rfl⟩, rfl⟩
      · rw [fetch_run_local_ok env sdb tdb sid fid artist title link sf ft hs ht hdl hex
          hloc] at hc
        simp at hc
  · rw [fetch_run_dl_some env sdb tdb sid fid artist title link sf ft e₀ hs ht hdl] at hc ⊢
    rw [fetchHandle_caught] at hc
    obtain rfl : e₀ = e := by simpa using hc
    rw [fetchHandle_not_soft _ _ _ _ _ _ hns]
    exact ⟨⟨_, fetchDb_save_self _ _ _, rfl, rfl⟩, ⟨_, rfl⟩, rfl⟩

/-- A static-mix environment whose separator call raises
`FileNotFoundError`. -/
def fnfStaticEnv : StaticEnv :=
  { okLocalStaticEnv with
    sepResult := some (Exc.fileNotFound "No such file or directory: ffmpeg") }

/-- Counterexample to C1 as stated: in a `create_static_mix` run whose
separator call raises the soft-timeout signal, the failure is caught, yet
the row keeps status `IN_PROGRESS` — no `ERROR` status and no string form
of the exception are recorded. -/
theorem c1_counterexample :
    (create_static_mix softStaticEnv testStaticDb "a").caught =
      some Exc.softTimeLimit ∧
    (create_static_mix softStaticEnv testStaticDb "a").db "a" =
      some { testStaticRow with status := TaskStatus.in_progress } ∧
    (create_static_mix softStaticEnv testStaticDb "a").db "a" ≠
      some { testStaticRow with status := TaskStatus.error,
                                error := Exc.softTimeLimit.toStr } := by
  decide

/-- C1 (amended): for every task invocation in which the job record exists
and a failure is caught, *except* the soft-timeout signal — i.e. for
`FileNotFoundError` and any generic exception — the task records the
failure on the job row: status `ERROR`, error `str(e)`, and the row is
saved (the error save being the final event).  The soft-timeout handler
records nothing. -/
theorem c1_error_recorded_except_soft :
    (∀ (env : StaticEnv) (db : StaticDb) (id : String) (row : StaticMixRow) (e : Exc),
      db id = some row →
      (create_static_mix env db id).caught = some e →
      e.isSoftTimeLimit = false →
      (∃ row', (create_static_mix env db id).db id = some row' ∧
        row'.status = TaskStatus.error ∧ row'.error = e.toStr) ∧
      ∃ tr', (create_static_mix env db id).trace =
        tr' ++ [Event.dbSave "StaticMix" id (some TaskStatus.error)]) ∧
    (∀ (env : DynamicEnv) (db : DynamicDb) (id : String) (row : DynamicMixRow) (e : Exc),
      db id = some row →
      (create_dynamic_mix env db id).caught = some e →
      e.isSoftTimeLimit = false →
      (∃ row', (create_dynamic_mix env db id).db id = some row' ∧
        row'.status = TaskStatus.error ∧ row'.error = e.toStr) ∧
      ∃ tr', (create_dynamic_mix env db id).trace =
        tr' ++ [Event.dbSave "DynamicMix" id (some TaskStatus.error)]) ∧
    (∀ (env : FetchEnv) (sdb : SourceDb) (tdb : FetchDb)
      (sid fid artist title link : String) (sf : SourceFileRow) (ft : FetchTaskRow)
      (e : Exc),
      sdb sid = some sf → tdb fid = some ft →
      (fetch_youtube_audio env sdb tdb sid fid artist title link).caught = some e →
      e.isSoftTimeLimit = false →
      (∃ row', (fetch_youtube_audio env sdb tdb sid fid artist title link).tdb fid =
          some row' ∧
        row'.status = TaskStatus.error ∧ row'.error = e.toStr) ∧
      ∃ tr', (fetch_youtube_audio env sdb tdb sid fid artist title link).trace =
        tr' ++ [Event.dbSave "YTAudioDownloadTask" fid (some TaskStatus.error)]) :=
  ⟨fun env db id row e h hc hns =>
     static_error_recorded env db id row e h hc hns,
   fun env db id row e h hc hns =>
     dynamic_error_recorded env db id row e h hc hns,
   fun env sdb tdb sid fid a t l sf ft e hs ht hc hns =>
     ⟨(fetch_error_recorded env sdb tdb sid fid a t l sf ft e hs ht hc hns).1,
      (fetch_error_recorded env sdb tdb sid fid a t l sf ft e hs ht hc hns).2.1⟩⟩

/-- Witness for C1 (amended): a concrete `create_static_mix` run whose
separator raises `FileNotFoundError` records that error on the row. -/
theorem c1_error_recorded_except_soft_witness :
    (∃ row', (create_static_mix fnfStaticEnv testStaticDb "a").db "a" = some row' ∧
      row'.status = TaskStatus.error ∧
      row'.error = (Exc.fileNotFound "No such file or directory: ffmpeg").toStr) ∧
    ∃ tr', (create_static_mix fnfStaticEnv testStaticDb "a").trace =
      tr' ++ [Event.dbSave "StaticMix" "a" (some TaskStatus.error)] :=
  c1_error_recorded_except_soft.1 fnfStaticEnv testStaticDb "a" testStaticRow
    (Exc.fileNotFound "No such file or directory: ffmpeg")
    (by decide) (by decide) (by decide)

/-- A fetch environment whose download succeeds but whose output file is
missing afterwards. -/
def failCheckFetchEnv : FetchEnv :=
  { okLocalFetchEnv with fsExists := fun _ => false }

/-- A soft-timeout test is true only for the soft-timeout exception. -/
theorem isSoftTimeLimit_eq (e : Exc) (he : e.isSoftTimeLimit = true) :
    e = Exc.softTimeLimit := by
  rcases e <;> simp_all [Exc.isSoftTimeLimit]

/-- Counterexample to C3 as stated: a `fetch_youtube_audio` run whose
download raises the soft-timeout signal catches the exception but does not
re-raise it, so the queue's retry mechanism is not triggered for that
caught exception. -/
theorem c3_counterexample :
    (fetch_youtube_audio softFetchEnv testSourceDb testFetchDb "s" "t" "A" "T" "L").caught =
      some Exc.softTimeLimit ∧
    (fetch_youtube_audio softFetchEnv testSourceDb testFetchDb "s" "t" "A" "T" "L").raised =
      none := by
  decide

/-- C3 (amended): when the `SourceFile` record exists and an exception is
caught during the download-and-store phase, `fetch_youtube_audio`
re-raises it after recording it — for every caught exception except the
soft-timeout signal, which is only logged and swallowed. -/
theorem c3_reraise_except_soft (env : FetchEnv) (sdb : SourceDb) (tdb : FetchDb)
    (sid fid artist title link : String) (sf : SourceFileRow) (ft : FetchTaskRow)
    (e : Exc) (hs : sdb sid = some sf) (ht : tdb fid = some ft)
    (hc : (fetch_youtube_audio env sdb tdb sid fid artist title link).caught = some e) :
    (fetch_youtube_audio env sdb tdb sid fid artist title link).raised =
      if e.isSoftTimeLimit then none else some e := by
  rcases he : e.isSoftTimeLimit with _ | _
  · simpa [he] using
      (fetch_error_recorded env sdb tdb sid fid artist title link sf ft e hs ht hc he).2.2
  · obtain rfl := isSoftTimeLimit_eq e he
    simpa using
      (fetch_soft_only_logs env sdb tdb sid fid artist title link sf ft hs ht hc).2.2.1

/-- Witness for C3 (amended): a concrete fetch run whose output check
fails catches `Exception('Error writing to file')` and re-raises it. -/
theorem c3_reraise_except_soft_witness :
    (fetch_youtube_audio failCheckFetchEnv testSourceDb testFetchDb
        "s" "t" "A" "T" "L").raised =
      if (Exc.generic "Error writing to file").isSoftTimeLimit then none
      else some (Exc.generic "Error writing to file") :=
  c3_reraise_except_soft failCheckFetchEnv testSourceDb testFetchDb
    "s" "t" "A" "T" "L" { file := "" } { status := TaskStatus.queued, error := "" }
    (Exc.generic "Error writing to file") (by decide) (by decide) (by decide)

/-- Saving one row leaves every other id unchanged. -/
theorem staticDb_save_other (db : StaticDb) (id j : String) (row : StaticMixRow)
    (hne : j ≠ id) : db.save id row j = db j := by
  simp [StaticDb.save, hne]

/-- Saving one dynamic row leaves every other id unchanged. -/
theorem dynamicDb_save_other (db : DynamicDb) (id j : String) (row : DynamicMixRow)
    (hne : j ≠ id) : db.save id row j = db j := by
  simp [DynamicDb.save, hne]

/-- Saving one fetch-task row leaves every other id unchanged. -/
theorem fetchDb_save_other (db : FetchDb) (id j : String) (row : FetchTaskRow)
    (hne : j ≠ id) : db.save id row j = db j := by
  simp [FetchDb.save, hne]

/-- Saving one source-file row leaves every other id unchanged. -/
theorem sourceDb_save_other (db : SourceDb) (id j : String) (row : SourceFileRow)
    (hne : j ≠ id) : db.save id row j = db j := by
  simp [SourceDb.save, hne]

/-- The static handler writes no row other than its own id. -/
theorem staticHandle_db_other (db : StaticDb) (id : String) (row : StaticMixRow)
    (tr : List Event) (e : Exc) (j : String) (hne : j ≠ id) :
    (staticHandle db id row tr e).db j = db j := by
  rcases he : e.isSoftTimeLimit <;> simp [staticHandle, he, StaticDb.save, hne]

/-- The dynamic handler writes no row other than its own id. -/
theorem dynamicHandle_db_other (db : DynamicDb) (id : String) (row : DynamicMixRow)
    (tr : List Event) (e : Exc) (j : String) (hne : j ≠ id) :
    (dynamicHandle db id row tr e).db j = db j := by
  rcases he : e.isSoftTimeLimit <;> simp [dynamicHandle, he, DynamicDb.save, hne]

/-- The fetch handler writes no fetch-task row other than its own id, and
no source-file row at all. -/
theorem fetchHandle_db_other (sdb : SourceDb) (tdb : FetchDb) (fid : String)
    (ft : FetchTaskRow) (tr : List Event) (e : Exc) (j : String) (hne : j ≠ fid) :
    (fetchHandle sdb tdb fid ft tr e).tdb j = tdb j ∧
    (fetchHandle sdb tdb fid ft tr e).sdb = sdb := by
  rcases he : e.isSoftTimeLimit <;> simp [fetchHandle, he, FetchDb.save, hne]

/-- `create_static_mix` writes no `StaticMix` row other than the given id. -/
theorem static_frame (env : StaticEnv) (db : StaticDb) (id j : String)
    (hne : j ≠ id) : (create_static_mix env db id).db j = db j := by
  rcases h : db id with _ | row
  · simp [create_static_mix, h]
  · rcases hsep : env.sepResult with _ | e
    · rcases hex : env.fsExists (static_rel_path env id row) with _ | _
      · rw [static_run_check_fail env db id row h hsep hex]
        rw [staticHandle_db_other _ _ _ _ _ _ hne, staticDb_save_other _ _ _ _ hne]
      · rcases hloc : env.settings.is_local with _ | _
        · rcases hcopy : env.copyResult with _ | e₁
          · rw [static_run_ext_ok env db id row h hsep hex hloc hcopy]
            simp only [staticDb_save_other _ _ _ _ hne]
          · rw [static_run_ext_copy_fail env db id row e₁ h hsep hex hloc hcopy]
            rw [staticHandle_db_other _ _ _ _ _ _ hne, staticDb_save_other _ _ _ _ hne]
        · rw [static_run_local_ok env db id row h hsep hex hloc]
          simp only [staticDb_save_other _ _ _ _ hne]
    · rw [static_run_sep_some env db id row e h hsep]
      rw [staticHandle_db_other _ _ _ _ _ _ hne, staticDb_save_other _ _ _ _ hne]

/-- `create_dynamic_mix` writes no `DynamicMix` row other than the given
id. -/
theorem dynamic_frame (env : DynamicEnv) (db : DynamicDb) (id j : String)
    (hne : j ≠ id) : (create_dynamic_mix env db id).db j = db j := by
  rcases h : db id with _ | row
  · simp [create_dynamic_mix, h]
  · rcases hsep : env.sepResult with _ | e
    · rcases hex : exists_all_parts env.fsExists (dynamic_rel_path env id) with _ | _
      · rw [dynamic_run_check_fail env db id row h hsep hex]
        rw [dynamicHandle_db_other _ _ _ _ _ _ hne, dynamicDb_save_other _ _ _ _ hne]
      · rcases hloc : env.settings.is_local with _ | _
        · rcases hcopy : env.copyResult with _ | e₁
          · rw [dynamic_run_ext_ok env db id row h hsep hex hloc hcopy]
            simp only [dynamicDb_save_other _ _ _ _ hne]
          · rw [dynamic_run_ext_copy_fail env db id row e₁ h hsep hex hloc hcopy]
            rw [dynamicHandle_db_other _ _ _ _ _ _ hne, dynamicDb_save_other _ _ _ _ hne]
        · rw [dynamic_run_local_ok env db id row h hsep hex hloc]
          simp only [dynamicDb_save_other _ _ _ _ hne]
    · rw [dynamic_run_sep_some env db id row e h hsep]
      rw [dynamicHandle_db_other _ _ _ _ _ _ hne, dynamicDb_save_other _ _ _ _ hne]

/-- `fetch_youtube_audio` writes no `SourceFile` row other than
`source_file_id` and no `YTAudioDownloadTask` row other than
`fetch_task_id`. -/
theorem fetch_frame (env : FetchEnv) (sdb : SourceDb) (tdb : FetchDb)
    (sid fid artist title link : String) (js jt : String)
    (hs : js ≠ sid) (ht : jt ≠ fid) :
    (fetch_youtube_audio env sdb tdb sid fid artist title link).sdb js = sdb js ∧
    (fetch_youtube_audio env sdb tdb sid fid artist title link).tdb jt = tdb jt := by
  rcases hsf : sdb sid with _ | sf
  · simp [fetch_youtube_audio, hsf]
  · rcases hft : tdb fid with _ | ft
    · simp [fetch_youtube_audio, hsf, hft]
    · rcases hdl : env.dlResult with _ | e
      · rcases hex : env.fsExists (fetch_rel_path env sid artist title) with _ | _
        · rw [fetch_run_check_fail env sdb tdb sid fid artist title link sf ft hsf hft
            hdl hex]
          refine ⟨(fetchHandle_db_other _ _ _ _ _ _ _ ht).2 ▸ rfl, ?_⟩
          rw [(fetchHandle_db_other _ _ _ _ _ _ _ ht).1, fetchDb_save_other _ _ _ _ ht]
        · rcases hloc : env.settings.is_local with _ | _
          · rcases hcopy : env.copyResult with _ | e₁
            · rw [fetch_run_ext_ok env sdb tdb sid fid artist title link sf ft hsf hft
                hdl hex hloc hcopy]
              exact ⟨sourceDb_save_other _ _ _ _ hs, by
                simp only [fetchDb_save_other _ _ _ _ ht]⟩
            · rw [fetch_run_ext_copy_fail env sdb tdb sid fid artist title link sf ft e₁
                hsf hft hdl hex hloc hcopy]
              refine ⟨(fetchHandle_db_other _ _ _ _ _ _ _ ht).2 ▸ rfl, ?_⟩
              rw [(fetchHandle_db_other _ _ _ _ _ _ _ ht).1, fetchDb_save_other _ _ _ _ ht]
          · rw [fetch_run_local_ok env sdb tdb sid fid artist title link sf ft hsf hft
              hdl hex hloc]
            exact ⟨sourceDb_save_other _ _ _ _ hs, by
              simp only [fetchDb_save_other _ _ _ _ ht]⟩
      · rw [fetch_run_dl_some env sdb tdb sid fid artist title link sf ft e hsf hft hdl]
        refine ⟨(fetchHandle_db_other _ _ _ _ _ _ _ ht).2 ▸ rfl, ?_⟩
        rw [(fetchHandle_db_other _ _ _ _ _ _ _ ht).1, fetchDb_save_other _ _ _ _ ht]

/-- Counterexample to C2 as stated: one successful `fetch_youtube_audio`
run modifies two database rows — the `YTAudioDownloadTask` row `"t"` and
the `SourceFile` row `"s"` — not exactly one. -/
theorem c2_counterexample :
    (fetch_youtube_audio okLocalFetchEnv testSourceDb testFetchDb
        "s" "t" "A" "T" "L").sdb "s" ≠ testSourceDb "s" ∧
    (fetch_youtube_audio okLocalFetchEnv testSourceDb testFetchDb
        "s" "t" "A" "T" "L").tdb "t" ≠ testFetchDb "t" := by
  decide

/-- C2 (amended): `create_static_mix` writes only the `StaticMix` row with
the given id, `create_dynamic_mix` writes only the `DynamicMix` row with
the given id, and `fetch_youtube_audio` writes only the `SourceFile` row
with `source_file_id` and the `YTAudioDownloadTask` row with
`fetch_task_id` (up to two rows); no task run writes any other database
row. -/
theorem c2_frame :
    (∀ (env : StaticEnv) (db : StaticDb) (id j : String), j ≠ id →
      (create_static_mix env db id).db j = db j) ∧
    (∀ (env : DynamicEnv) (db : DynamicDb) (id j : String), j ≠ id →
      (create_dynamic_mix env db id).db j = db j) ∧
    (∀ (env : FetchEnv) (sdb : SourceDb) (tdb : FetchDb)
      (sid fid artist title link js jt : String), js ≠ sid → jt ≠ fid →
      (fetch_youtube_audio env sdb tdb sid fid artist title link).sdb js = sdb js ∧
      (fetch_youtube_audio env sdb tdb sid fid artist title link).tdb jt = tdb jt) :=
  ⟨fun env db id j hne => static_frame env db id j hne,
   fun env db id j hne => dynamic_frame env db id j hne,
   fun env sdb tdb sid fid a t l js jt hs ht =>
     fetch_frame env sdb tdb sid fid a t l js jt hs ht⟩

/-- Witness for C2 (amended): the concrete successful runs leave foreign
ids untouched. -/
theorem c2_frame_witness :
    (create_static_mix okLocalStaticEnv testStaticDb "a").db "b" = testStaticDb "b" ∧
    (fetch_youtube_audio okLocalFetchEnv testSourceDb testFetchDb
        "s" "t" "A" "T" "L").sdb "x" = testSourceDb "x" :=
  ⟨c2_frame.1 okLocalStaticEnv testStaticDb "a" "b" (by decide),
   (c2_frame.2.2 okLocalFetchEnv testSourceDb testFetchDb "s" "t" "A" "T" "L" "x" "y"
      (by decide) (by decide)).1⟩

/-- C4: after the external call, each task verifies its outputs before
marking the job done — `exists_all_parts` requires exactly the four part
files `vocals.mp3`, `other.mp3`, `bass.mp3`, `drums.mp3` — and when the
verification fails the task raises and records an exception whose message
is `'Error writing to file'`: the job row's status becomes `ERROR` and the
statuses ever saved are `IN_PROGRESS` then `ERROR`, never `DONE`. -/
theorem c4_output_verification :
    (∀ (f : String → Bool) (p : String),
      exists_all_parts f p = true ↔
        (f (pjoin p "vocals.mp3") = true ∧ f (pjoin p "other.mp3") = true ∧
         f (pjoin p "bass.mp3") = true ∧ f (pjoin p "drums.mp3") = true)) ∧
    (∀ (env : StaticEnv) (db : StaticDb) (id : String) (row : StaticMixRow),
      db id = some row → env.sepResult = none →
      env.fsExists (static_rel_path env id row) = false →
      (create_static_mix env db id).caught =
        some (Exc.generic "Error writing to file") ∧
      (∃ row', (create_static_mix env db id).db id = some row' ∧
        row'.status = TaskStatus.error ∧ row'.error = "Error writing to file") ∧
      statusSaves (create_static_mix env db id).trace =
        [TaskStatus.in_progress, TaskStatus.error]) ∧
    (∀ (env : DynamicEnv) (db : DynamicDb) (id : String) (row : DynamicMixRow),
      db id = some row → env.sepResult = none →
      exists_all_parts env.fsExists (dynamic_rel_path env id) = false →
      (create_dynamic_mix env db id).caught =
        some (Exc.generic "Error writing to file") ∧
      (∃ row', (create_dynamic_mix env db id).db id = some row' ∧
        row'.status = TaskStatus.error ∧ row'.error = "Error writing to file") ∧
      statusSaves (create_dynamic_mix env db id).trace =
        [TaskStatus.in_progress, TaskStatus.error]) ∧
    (∀ (env : FetchEnv) (sdb : SourceDb) (tdb : FetchDb)
      (sid fid artist title link : String) (sf : SourceFileRow) (ft : FetchTaskRow),
      sdb sid = some sf → tdb fid = some ft → env.dlResult = none →
      env.fsExists (fetch_rel_path env sid artist title) = false →
      (fetch_youtube_audio env sdb tdb sid fid artist title link).caught =
        some (Exc.generic "Error writing to file") ∧
      (∃ row', (fetch_youtube_audio env sdb tdb sid fid artist title link).tdb fid =
        some row' ∧
        row'.status = TaskStatus.error ∧ row'.error = "Error writing to file") ∧
      statusSaves (fetch_youtube_audio env sdb tdb sid fid artist title link).trace =
        [TaskStatus.in_progress, TaskStatus.error]) := by
  refine ⟨?_, ?_, ?_, ?_⟩
  · intro f p
    simp [exists_all_parts, parts_order, and_assoc]
  · intro env db id row h hsep hex
    rw [static_run_check_fail env db id row h hsep hex,
      staticHandle_not_soft _ _ _ _ _ (by rfl)]
    exact ⟨rfl, ⟨_, staticDb_save_self _ _ _, rfl, rfl⟩, by
      simp [statusSaves, staticPrefixTrace]⟩
  · intro env db id row h hsep hex
    rw [dynamic_run_check_fail env db id row h hsep hex,
      dynamicHandle_not_soft _ _ _ _ _ (by rfl)]
    exact ⟨rfl, ⟨_, dynamicDb_save_self _ _ _, rfl, rfl⟩, by
      simp [statusSaves, dynamicPrefixTrace]⟩
  · intro env sdb tdb sid fid artist title link sf ft hs ht hdl hex
    rw [fetch_run_check_fail env sdb tdb sid fid artist title link sf ft hs ht hdl hex,
      fetchHandle_not_soft _ _ _ _ _ _ (by rfl)]
    exact ⟨rfl, ⟨_, fetchDb_save_self _ _ _, rfl, rfl⟩, by
      simp [statusSaves, fetchPrefixTrace]⟩

/-- Witness for C4: concrete runs with a missing output file record the
`'Error writing to file'` failure and never save `DONE`. -/
theorem c4_output_verification_witness :
    exists_all_parts (fun _ => true) "media/separate/d" = true ∧
    statusSaves (create_static_mix
        { okLocalStaticEnv with fsExists := fun _ => false } testStaticDb "a").trace =
      [TaskStatus.in_progress, TaskStatus.error] :=
  ⟨(c4_output_verification.1 (fun _ => true) "media/separate/d").2
     (by exact ⟨rfl, rfl, rfl, rfl⟩),
   (c4_output_verification.2.1 { okLocalStaticEnv with fsExists := fun _ => false }
      testStaticDb "a" testStaticRow (by decide) rfl rfl).2.2⟩

/-- A fully successful external-storage static-mix environment. -/
def okExtStaticEnv : StaticEnv :=
  { okLocalStaticEnv with settings := extSettings }

/-- A fully successful external-storage fetch environment. -/
def okExtFetchEnv : FetchEnv :=
  { okLocalFetchEnv with settings := extSettings }

/-- C7: under a non-local storage backend, every run that reaches `DONE`
first reads the output file(s) into the row's file field(s) and only
afterwards removes the local temporaries: `create_static_mix` and
`fetch_youtube_audio` remove the single file and then its directory, and
`create_dynamic_mix` removes the whole per-job directory tree after
reading all four parts. -/
theorem c7_ext_storage_cleanup :
    (∀ (env : StaticEnv) (db : StaticDb) (id : String) (row : StaticMixRow),
      db id = some row → env.sepResult = none →
      env.fsExists (static_rel_path env id row) = true →
      env.settings.is_local = false → env.copyResult = none →
      (∃ row', (create_static_mix env db id).db id = some row' ∧
        row'.status = TaskStatus.done ∧ row'.file = static_filename env row) ∧
      (create_static_mix env db id).trace =
        staticPrefixTrace env id row ++
          [Event.checkExists (static_rel_path env id row) true,
           Event.readFile (static_rel_path env id row),
           Event.removeFile (static_rel_path env id row),
           Event.rmdir (static_rel_path_dir env id),
           Event.dbSave "StaticMix" id (some TaskStatus.done)]) ∧
    (∀ (env : DynamicEnv) (db : DynamicDb) (id : String) (row : DynamicMixRow),
      db id = some row → env.sepResult = none →
      exists_all_parts env.fsExists (dynamic_rel_path env id) = true →
      env.settings.is_local = false → env.copyResult = none →
      (∃ row', (create_dynamic_mix env db id).db id = some row' ∧
        row'.status = TaskStatus.done) ∧
      (create_dynamic_mix env db id).trace =
        dynamicPrefixTrace env id row ++
          [Event.checkExists (dynamic_rel_path env id) true] ++
          rename_all_parts (dynamic_rel_path env id) (dynamic_file_stem env.slug row) ++
          ext_storage_reads (dynamic_rel_path env id) (dynamic_file_stem env.slug row) ++
          [Event.dbSave "DynamicMix" id (some TaskStatus.done),
           Event.rmtree (dynamic_rel_path env id)]) ∧
    (∀ (env : FetchEnv) (sdb : SourceDb) (tdb : FetchDb)
      (sid fid artist title link : String) (sf : SourceFileRow) (ft : FetchTaskRow),
      sdb sid = some sf → tdb fid = some ft → env.dlResult = none →
      env.fsExists (fetch_rel_path env sid artist title) = true →
      env.settings.is_local = false → env.copyResult = none →
      (∃ row', (fetch_youtube_audio env sdb tdb sid fid artist title link).tdb fid =
        some row' ∧ row'.status = TaskStatus.done) ∧
      (fetch_youtube_audio env sdb tdb sid fid artist title link).sdb sid =
        some { sf with file := fetch_filename env artist title } ∧
      (fetch_youtube_audio env sdb tdb sid fid artist title link).trace =
        fetchPrefixTrace env sid fid artist title link ++
          [Event.checkExists (fetch_rel_path env sid artist title) true,
           Event.readFile (fetch_rel_path env sid artist title),
           Event.removeFile (fetch_rel_path env sid artist title),
           Event.rmdir (fetch_rel_dir_path env sid),
           Event.dbSave "YTAudioDownloadTask" fid (some TaskStatus.done),
           Event.dbSave "SourceFile" sid none]) := by
  refine ⟨?_, ?_, ?_⟩
  · intro env db id row h hsep hex hloc hcopy
    rw [static_run_ext_ok env db id row h hsep hex hloc hcopy]
    exact ⟨⟨_, staticDb_save_self _ _ _, rfl, rfl⟩, rfl⟩
  · intro env db id row h hsep hex hloc hcopy
    rw [dynamic_run_ext_ok env db id row h hsep hex hloc hcopy]
    exact ⟨⟨_, dynamicDb_save_self _ _ _, rfl⟩, rfl⟩
  · intro env sdb tdb sid fid artist title link sf ft hs ht hdl hex hloc hcopy
    rw [fetch_run_ext_ok env sdb tdb sid fid artist title link sf ft hs ht hdl hex
      hloc hcopy]
    exact ⟨⟨_, fetchDb_save_self _ _ _, rfl⟩, sourceDb_save_self _ _ _, rfl⟩

/-- Witness for C7: a concrete external-storage static run reads the file
into the row and then removes it and its directory; a concrete dynamic run
removes the tree after the four reads. -/
theorem c7_ext_storage_cleanup_witness :
    (∃ row', (create_static_mix okExtStaticEnv testStaticDb "a").db "a" = some row' ∧
      row'.status = TaskStatus.done ∧
      row'.file = static_filename okExtStaticEnv testStaticRow) ∧
    (∃ row', (create_dynamic_mix okExtDynamicEnv testDynamicDb "d").db "d" = some row' ∧
      row'.status = TaskStatus.done) :=
  ⟨(c7_ext_storage_cleanup.1 okExtStaticEnv testStaticDb "a" testStaticRow
      (by decide) rfl rfl (by decide) rfl).1,
   (c7_ext_storage_cleanup.2.1 okExtDynamicEnv testDynamicDb "d" testDynamicRow
      (by decide) rfl (by decide) (by decide) rfl).1⟩

/-- The soft-timeout branch of the static handler. -/
theorem staticHandle_soft (db : StaticDb) (id : String) (row : StaticMixRow)
    (tr : List Event) :
    staticHandle db id row tr Exc.softTimeLimit =
      { db := db, trace := tr ++ [Event.log "Aborted!"],
        caught := some Exc.softTimeLimit, raised := none } := by
  simp [staticHandle, Exc.isSoftTimeLimit]

/-- The soft-timeout branch of the dynamic handler. -/
theorem dynamicHandle_soft (db : DynamicDb) (id : String) (row : DynamicMixRow)
    (tr : List Event) :
    dynamicHandle db id row tr Exc.softTimeLimit =
      { db := db, trace := tr ++ [Event.log "Aborted!"],
        caught := some Exc.softTimeLimit, raised := none } := by
  simp [dynamicHandle, Exc.isSoftTimeLimit]

/-- The soft-timeout branch of the fetch handler. -/
theorem fetchHandle_soft (sdb : SourceDb) (tdb : FetchDb) (fid : String)
    (ft : FetchTaskRow) (tr : List Event) :
    fetchHandle sdb tdb fid ft tr Exc.softTimeLimit =
      { sdb := sdb, tdb := tdb, trace := tr ++ [Event.log "Aborted!"],
        caught := some Exc.softTimeLimit, raised := none } := by
  simp [fetchHandle, Exc.isSoftTimeLimit]

/-- Ordering of one `create_static_mix` run with an existing row: the
in-progress save comes before path computation and the external call, the
external call before the existence check, renames/copies only after a
successful check, and the saved statuses are exactly `[IN_PROGRESS, DONE]`
on success, `[IN_PROGRESS]` on a swallowed soft-timeout and
`[IN_PROGRESS, ERROR]` on a recorded failure. -/
theorem static_ordered (env : StaticEnv) (db : StaticDb) (id : String)
    (row : StaticMixRow) (h : db id = some row) :
    precedes isSaveInProgress isPathOrExtCall (create_static_mix env db id).trace = true ∧
    precedes isExtCallEv isCheckEv (create_static_mix env db id).trace = true ∧
    precedes isCheckTrueEv isRenameOrCopyEv (create_static_mix env db id).trace = true ∧
    ((create_static_mix env db id).caught = none →
      statusSaves (create_static_mix env db id).trace =
        [TaskStatus.in_progress, TaskStatus.done]) ∧
    (∀ e, (create_static_mix env db id).caught = some e →
      statusSaves (create_static_mix env db id).trace =
        if e.isSoftTimeLimit then [TaskStatus.in_progress]
        else [TaskStatus.in_progress, TaskStatus.error]) := by
  rcases hsep : env.sepResult with _ | e
  · rcases hex : env.fsExists (static_rel_path env id row) with _ | _
    · rw [static_run_check_fail env db id row h hsep hex,
        staticHandle_not_soft _ _ _ _ _ (by rfl)]
      refine ⟨?_, ?_, ?_, ?_, ?_⟩ <;>
        simp [precedes, isSaveInProgress, isPathOrExtCall, isExtCallEv, isCheckEv,
          isCheckTrueEv, isRenameOrCopyEv, statusSaves, staticPrefixTrace,
          Exc.isSoftTimeLimit]
    · rcases hloc : env.settings.is_local with _ | _
      · rcases hcopy : env.copyResult with _ | e₁
        · rw [static_run_ext_ok env db id row h hsep hex hloc hcopy]
          refine ⟨?_, ?_, ?_, ?_, ?_⟩ <;>
            simp [precedes, isSaveInProgress, isPathOrExtCall, isExtCallEv, isCheckEv,
              isCheckTrueEv, isRenameOrCopyEv, statusSaves, staticPrefixTrace]
        · rw [static_run_ext_copy_fail env db id row e₁ h hsep hex hloc hcopy]
          rcases he : e₁.isSoftTimeLimit with _ | _
          · rw [staticHandle_not_soft _ _ _ _ _ he]
            refine ⟨?_, ?_, ?_, ?_, ?_⟩ <;>
              simp [precedes, isSaveInProgress, isPathOrExtCall, isExtCallEv, isCheckEv,
                isCheckTrueEv, isRenameOrCopyEv, statusSaves, staticPrefixTrace, he]
          · obtain rfl := isSoftTimeLimit_eq e₁ he
            rw [staticHandle_soft]
            refine ⟨?_, ?_, ?_, ?_, ?_⟩ <;>
              simp [precedes, isSaveInProgress, isPathOrExtCall, isExtCallEv, isCheckEv,
                isCheckTrueEv, isRenameOrCopyEv, statusSaves, staticPrefixTrace,
                Exc.isSoftTimeLimit]
      · rw [static_run_local_ok env db id row h hsep hex hloc]
        refine ⟨?_, ?_, ?_, ?_, ?_⟩ <;>
          simp [precedes, isSaveInProgress, isPathOrExtCall, isExtCallEv, isCheckEv,
            isCheckTrueEv, isRenameOrCopyEv, statusSaves, staticPrefixTrace]
  · rw [static_run_sep_some env db id row e h hsep]
    rcases he : e.isSoftTimeLimit with _ | _
    · rw [staticHandle_not_soft _ _ _ _ _ he]
      refine ⟨?_, ?_, ?_, ?_, ?_⟩ <;>
        simp [precedes, isSaveInProgress, isPathOrExtCall, isExtCallEv, isCheckEv,
          isCheckTrueEv, isRenameOrCopyEv, statusSaves, staticPrefixTrace, he]
    · obtain rfl := isSoftTimeLimit_eq e he
      rw [staticHandle_soft]
      refine ⟨?_, ?_, ?_, ?_, ?_⟩ <;>
        simp [precedes, isSaveInProgress, isPathOrExtCall, isExtCallEv, isCheckEv,
          isCheckTrueEv, isRenameOrCopyEv, statusSaves, staticPrefixTrace,
          Exc.isSoftTimeLimit]

/-- Ordering of one `create_dynamic_mix` run with an existing row
(same reading as `static_ordered`). -/
theorem dynamic_ordered (env : DynamicEnv) (db : DynamicDb) (id : String)
    (row : DynamicMixRow) (h : db id = some row) :
    precedes isSaveInProgress isPathOrExtCall (create_dynamic_mix env db id).trace = true ∧
    precedes isExtCallEv isCheckEv (create_dynamic_mix env db id).trace = true ∧
    precedes isCheckTrueEv isRenameOrCopyEv (create_dynamic_mix env db id).trace = true ∧
    ((create_dynamic_mix env db id).caught = none →
      statusSaves (create_dynamic_mix env db id).trace =
        [TaskStatus.in_progress, TaskStatus.done]) ∧
    (∀ e, (create_dynamic_mix env db id).caught = some e →
      statusSaves (create_dynamic_mix env db id).trace =
        if e.isSoftTimeLimit then [TaskStatus.in_progress]
        else [TaskStatus.in_progress, TaskStatus.error]) := by
  rcases hsep : env.sepResult with _ | e
  · rcases hex : exists_all_parts env.fsExists (dynamic_rel_path env id) with _ | _
    · rw [dynamic_run_check_fail env db id row h hsep hex,
        dynamicHandle_not_soft _ _ _ _ _ (by rfl)]
      refine ⟨?_, ?_, ?_, ?_, ?_⟩ <;>
        simp [precedes, isSaveInProgress, isPathOrExtCall, isExtCallEv, isCheckEv,
          isCheckTrueEv, isRenameOrCopyEv, statusSaves, dynamicPrefixTrace,
          Exc.isSoftTimeLimit]
    · rcases hloc : env.settings.is_local with _ | _
      · rcases hcopy : env.copyResult with _ | e₁
        · rw [dynamic_run_ext_ok env db id row h hsep hex hloc hcopy]
          refine ⟨?_, ?_, ?_, ?_, ?_⟩ <;>
            simp [precedes, isSaveInProgress, isPathOrExtCall, isExtCallEv, isCheckEv,
              isCheckTrueEv, isRenameOrCopyEv, statusSaves, dynamicPrefixTrace,
              rename_all_parts, ext_storage_reads, parts_order]
        · rw [dynamic_run_ext_copy_fail env db id row e₁ h hsep hex hloc hcopy]
          rcases he : e₁.isSoftTimeLimit with _ | _
          · rw [dynamicHandle_not_soft _ _ _ _ _ he]
            refine ⟨?_, ?_, ?_, ?_, ?_⟩ <;>
              simp [precedes, isSaveInProgress, isPathOrExtCall, isExtCallEv, isCheckEv,
                isCheckTrueEv, isRenameOrCopyEv, statusSaves, dynamicPrefixTrace,
                rename_all_parts, parts_order, he]
          · obtain rfl := isSoftTimeLimit_eq e₁ he
            rw [dynamicHandle_soft]
            refine ⟨?_, ?_, ?_, ?_, ?_⟩ <;>
              simp [precedes, isSaveInProgress, isPathOrExtCall, isExtCallEv, isCheckEv,
                isCheckTrueEv, isRenameOrCopyEv, statusSaves, dynamicPrefixTrace,
                rename_all_parts, parts_order, Exc.isSoftTimeLimit]
      · rw [dynamic_run_local_ok env db id row h hsep hex hloc]
        refine ⟨?_, ?_, ?_, ?_, ?_⟩ <;>
          simp [precedes, isSaveInProgress, isPathOrExtCall, isExtCallEv, isCheckEv,
            isCheckTrueEv, isRenameOrCopyEv, statusSaves, dynamicPrefixTrace,
            rename_all_parts, parts_order]
  · rw [dynamic_run_sep_some env db id row e h hsep]
    rcases he : e.isSoftTimeLimit with _ | _
    · rw [dynamicHandle_not_soft _ _ _ _ _ he]
      refine ⟨?_, ?_, ?_, ?_, ?_⟩ <;>
        simp [precedes, isSaveInProgress, isPathOrExtCall, isExtCallEv, isCheckEv,
          isCheckTrueEv, isRenameOrCopyEv, statusSaves, dynamicPrefixTrace, he]
    · obtain rfl := isSoftTimeLimit_eq e he
      rw [dynamicHandle_soft]
      refine ⟨?_, ?_, ?_, ?_, ?_⟩ <;>
        simp [precedes, isSaveInProgress, isPathOrExtCall, isExtCallEv, isCheckEv,
          isCheckTrueEv, isRenameOrCopyEv, statusSaves, dynamicPrefixTrace,
          Exc.isSoftTimeLimit]

/-- Ordering of one `fetch_youtube_audio` run with existing rows
(same reading as `static_ordered`). -/
theorem fetch_ordered (env : FetchEnv) (sdb : SourceDb) (tdb : FetchDb)
    (sid fid artist title link : String) (sf : SourceFileRow) (ft : FetchTaskRow)
    (hs : sdb sid = some sf) (ht : tdb fid = some ft) :
    precedes isSaveInProgress isPathOrExtCall
      (fetch_youtube_audio env sdb tdb sid fid artist title link).trace = true ∧
    precedes isExtCallEv isCheckEv
      (fetch_youtube_audio env sdb tdb sid fid artist title link).trace = true ∧
    precedes isCheckTrueEv isRenameOrCopyEv
      (fetch_youtube_audio env sdb tdb sid fid artist title link).trace = true ∧
    ((fetch_youtube_audio env sdb tdb sid fid artist title link).caught = none →
      statusSaves (fetch_youtube_audio env sdb tdb sid fid artist title link).trace =
        [TaskStatus.in_progress, TaskStatus.done]) ∧
    (∀ e, (fetch_youtube_audio env sdb tdb sid fid artist title link).caught = some e →
      statusSaves (fetch_youtube_audio env sdb tdb sid fid artist title link).trace =
        if e.isSoftTimeLimit then [TaskStatus.in_progress]
        else [TaskStatus.in_progress, TaskStatus.error]) := by
  rcases hdl : env.dlResult with _ | e
  · rcases hex : env.fsExists (fetch_rel_path env sid artist title) with _ | _
    · rw [fetch_run_check_fail env sdb tdb sid fid artist title link sf ft hs ht hdl hex,
        fetchHandle_not_soft _ _ _ _ _ _ (by rfl)]
      refine ⟨?_, ?_, ?_, ?_, ?_⟩ <;>
        simp [precedes, isSaveInProgress, isPathOrExtCall, isExtCallEv, isCheckEv,
          isCheckTrueEv, isRenameOrCopyEv, statusSaves, fetchPrefixTrace,
          Exc.isSoftTimeLimit]
    · rcases hloc : env.settings.is_local with _ | _
      · rcases hcopy : env.copyResult with _ | e₁
        · rw [fetch_run_ext_ok env sdb tdb sid fid artist title link sf ft hs ht hdl hex
            hloc hcopy]
          refine ⟨?_, ?_, ?_, ?_, ?_⟩ <;>
            simp [precedes, isSaveInProgress, isPathOrExtCall, isExtCallEv, isCheckEv,
              isCheckTrueEv, isRenameOrCopyEv, statusSaves, fetchPrefixTrace]
        · rw [fetch_run_ext_copy_fail env sdb tdb sid fid artist title link sf ft e₁
            hs ht hdl hex hloc hcopy]
          rcases he : e₁.isSoftTimeLimit with _ | _
          · rw [fetchHandle_not_soft _ _ _ _ _ _ he]
            refine ⟨?_, ?_, ?_, ?_, ?_⟩ <;>
              simp [precedes, isSaveInProgress, isPathOrExtCall, isExtCallEv, isCheckEv,
                isCheckTrueEv, isRenameOrCopyEv, statusSaves, fetchPrefixTrace, he]
          · obtain rfl := isSoftTimeLimit_eq e₁ he
            rw [fetchHandle_soft]
            refine ⟨?_, ?_, ?_, ?_, ?_⟩ <;>
              simp [precedes, isSaveInProgress, isPathOrExtCall, isExtCallEv, isCheckEv,
                isCheckTrueEv, isRenameOrCopyEv, statusSaves, fetchPrefixTrace,
                Exc.isSoftTimeLimit]
      · rw [fetch_run_local_ok env sdb tdb sid fid artist title link sf ft hs ht hdl hex
          hloc]
        refine ⟨?_, ?_, ?_, ?_, ?_⟩ <;>
          simp [precedes, isSaveInProgress, isPathOrExtCall, isExtCallEv, isCheckEv,
            isCheckTrueEv, isRenameOrCopyEv, statusSaves, fetchPrefixTrace]
  · rw [fetch_run_dl_some env sdb tdb sid fid artist title link sf ft e hs ht hdl]
    rcases he : e.isSoftTimeLimit with _ | _
    · rw [fetchHandle_not_soft _ _ _ _ _ _ he]
      refine ⟨?_, ?_, ?_, ?_, ?_⟩ <;>
        simp [precedes, isSaveInProgress, isPathOrExtCall, isExtCallEv, isCheckEv,
          isCheckTrueEv, isRenameOrCopyEv, statusSaves, fetchPrefixTrace, he]
    · obtain rfl := isSoftTimeLimit_eq e he
      rw [fetchHandle_soft]
      refine ⟨?_, ?_, ?_, ?_, ?_⟩ <;>
        simp [precedes, isSaveInProgress, isPathOrExtCall, isExtCallEv, isCheckEv,
          isCheckTrueEv, isRenameOrCopyEv, statusSaves, fetchPrefixTrace,
          Exc.isSoftTimeLimit]

/-- C6: for every task invocation with an existing job record, the steps
occur in the fixed order: the in-progress save precedes path computation
and the external call, the external call precedes the output-existence
check, renames and copies appear only after a successful check, and the
statuses saved are exactly `IN_PROGRESS` then `DONE` on success or
`IN_PROGRESS` then `ERROR` on a recorded failure (only `IN_PROGRESS` on a
swallowed soft-timeout) — the status never moves from `DONE` back to
`IN_PROGRESS` or `ERROR` within one run. -/
theorem c6_fixed_order :
    (∀ (env : StaticEnv) (db : StaticDb) (id : String) (row : StaticMixRow),
      db id = some row →
      precedes isSaveInProgress isPathOrExtCall (create_static_mix env db id).trace = true ∧
      precedes isExtCallEv isCheckEv (create_static_mix env db id).trace = true ∧
      precedes isCheckTrueEv isRenameOrCopyEv (create_static_mix env db id).trace = true ∧
      ((create_static_mix env db id).caught = none →
        statusSaves (create_static_mix env db id).trace =
          [TaskStatus.in_progress, TaskStatus.done]) ∧
      (∀ e, (create_static_mix env db id).caught = some e →
        statusSaves (create_static_mix env db id).trace =
          if e.isSoftTimeLimit then [TaskStatus.in_progress]
          else [TaskStatus.in_progress, TaskStatus.error])) ∧
    (∀ (env : DynamicEnv) (db : DynamicDb) (id : String) (row : DynamicMixRow),
      db id = some row →
      precedes isSaveInProgress isPathOrExtCall (create_dynamic_mix env db id).trace = true ∧
      precedes isExtCallEv isCheckEv (create_dynamic_mix env db id).trace = true ∧
      precedes isCheckTrueEv isRenameOrCopyEv (create_dynamic_mix env db id).trace = true ∧
      ((create_dynamic_mix env db id).caught = none →
        statusSaves (create_dynamic_mix env db id).trace =
          [TaskStatus.in_progress, TaskStatus.done]) ∧
      (∀ e, (create_dynamic_mix env db id).caught = some e →
        statusSaves (create_dynamic_mix env db id).trace =
          if e.isSoftTimeLimit then [TaskStatus.in_progress]
          else [TaskStatus.in_progress, TaskStatus.error])) ∧
    (∀ (env : FetchEnv) (sdb : SourceDb) (tdb : FetchDb)
      (sid fid artist title link : String) (sf : SourceFileRow) (ft : FetchTaskRow),
      sdb sid = some sf → tdb fid = some ft →
      precedes isSaveInProgress isPathOrExtCall
        (fetch_youtube_audio env sdb tdb sid fid artist title link).trace = true ∧
      precedes isExtCallEv isCheckEv
        (fetch_youtube_audio env sdb tdb sid fid artist title link).trace = true ∧
      precedes isCheckTrueEv isRenameOrCopyEv
        (fetch_youtube_audio env sdb tdb sid fid artist title link).trace = true ∧
      ((fetch_youtube_audio env sdb tdb sid fid artist title link).caught = none →
        statusSaves (fetch_youtube_audio env sdb tdb sid fid artist title link).trace =
          [TaskStatus.in_progress, TaskStatus.done]) ∧
      (∀ e, (fetch_youtube_audio env sdb tdb sid fid artist title link).caught = some e →
        statusSaves (fetch_youtube_audio env sdb tdb sid fid artist title link).trace =
          if e.isSoftTimeLimit then [TaskStatus.in_progress]
          else [TaskStatus.in_progress, TaskStatus.error])) :=
  ⟨fun env db id row h => static_ordered env db id row h,
   fun env db id row h => dynamic_ordered env db id row h,
   fun env sdb tdb sid fid a t l sf ft hs ht =>
     fetch_ordered env sdb tdb sid fid a t l sf ft hs ht⟩

/-- Witness for C6: the ordering facts evaluated on a concrete successful
static run and a concrete successful dynamic run. -/
theorem c6_fixed_order_witness :
    precedes isSaveInProgress isPathOrExtCall
      (create_static_mix okLocalStaticEnv testStaticDb "a").trace = true ∧
    precedes isCheckTrueEv isRenameOrCopyEv
      (create_dynamic_mix okExtDynamicEnv testDynamicDb "d").trace = true :=
  ⟨(c6_fixed_order.1 okLocalStaticEnv testStaticDb "a" testStaticRow (by decide)).1,
   (c6_fixed_order.2.1 okExtDynamicEnv testDynamicDb "d" testDynamicRow
      (by decide)).2.2.1⟩

/-- Counterexample to C10 as stated: a dynamic-mix run that reaches `DONE`
under the external storage backend stores the bare prefixed filename
`artist-title-vocals.mp3` in `vocals_file`, not a path under the per-job
directory. -/
theorem c10_counterexample :
    Option.map DynamicMixRow.status
        ((create_dynamic_mix okExtDynamicEnv testDynamicDb "d").db "d") =
      some TaskStatus.done ∧
    Option.map DynamicMixRow.vocals_file
        ((create_dynamic_mix okExtDynamicEnv testDynamicDb "d").db "d") =
      some "artist-title-vocals.mp3" ∧
    Option.map DynamicMixRow.vocals_file
        ((create_dynamic_mix okExtDynamicEnv testDynamicDb "d").db "d") ≠
      some (pjoin (dynamic_rel_media_path okExtDynamicEnv "d")
        ("artist-title" ++ "-vocals.mp3")) := by
  decide

/-- C10 (amended): in every dynamic-mix run that passes the output check,
the four parts are renamed from `{part}.mp3` to `{file_stem}-{part}.mp3`
(with `file_stem` the slugified formatted name); in a run reaching
`DONE` under the local backend the row's four file references point to
exactly those prefixed filenames under the per-job directory, while under
an external backend they are set to the bare prefixed filenames (the
per-job directory having been deleted). -/
theorem c10_rename_and_file_refs (env : DynamicEnv) (db : DynamicDb) (id : String)
    (row : DynamicMixRow) (h : db id = some row) (hsep : env.sepResult = none)
    (hex : exists_all_parts env.fsExists (dynamic_rel_path env id) = true) :
    (∃ pre suf, (create_dynamic_mix env db id).trace =
      pre ++ rename_all_parts (dynamic_rel_path env id)
        (dynamic_file_stem env.slug row) ++ suf) ∧
    (env.settings.is_local = true →
      ∃ row', (create_dynamic_mix env db id).db id = some row' ∧
        row'.status = TaskStatus.done ∧
        row'.vocals_file = pjoin (dynamic_rel_media_path env id)
          (dynamic_file_stem env.slug row ++ "-vocals.mp3") ∧
        row'.other_file = pjoin (dynamic_rel_media_path env id)
          (dynamic_file_stem env.slug row ++ "-other.mp3") ∧
        row'.bass_file = pjoin (dynamic_rel_media_path env id)
          (dynamic_file_stem env.slug row ++ "-bass.mp3") ∧
        row'.drums_file = pjoin (dynamic_rel_media_path env id)
          (dynamic_file_stem env.slug row ++ "-drums.mp3")) ∧
    (env.settings.is_local = false → env.copyResult = none →
      ∃ row', (create_dynamic_mix env db id).db id = some row' ∧
        row'.status = TaskStatus.done ∧
        row'.vocals_file = dynamic_file_stem env.slug row ++ "-vocals.mp3" ∧
        row'.other_file = dynamic_file_stem env.slug row ++ "-other.mp3" ∧
        row'.bass_file = dynamic_file_stem env.slug row ++ "-bass.mp3" ∧
        row'.drums_file = dynamic_file_stem env.slug row ++ "-drums.mp3") := by
  refine ⟨?_, ?_, ?_⟩
  · rcases hloc : env.settings.is_local with _ | _
    · rcases hcopy : env.copyResult with _ | e₁
      · rw [dynamic_run_ext_ok env db id row h hsep hex hloc hcopy]
        exact ⟨dynamicPrefixTrace env id row ++
            [Event.checkExists (dynamic_rel_path env id) true],
          ext_storage_reads (dynamic_rel_path env id)
              (dynamic_file_stem env.slug row) ++
            [Event.dbSave "DynamicMix" id (some TaskStatus.done),
             Event.rmtree (dynamic_rel_path env id)],
          by simp⟩
      · rw [dynamic_run_ext_copy_fail env db id row e₁ h hsep hex hloc hcopy]
        rcases he : e₁.isSoftTimeLimit with _ | _
        · rw [dynamicHandle_not_soft _ _ _ _ _ he]
          exact ⟨dynamicPrefixTrace env id row ++
              [Event.checkExists (dynamic_rel_path env id) true],
            [Event.dbSave "DynamicMix" id (some TaskStatus.error)], by simp⟩
        · obtain rfl := isSoftTimeLimit_eq e₁ he
          rw [dynamicHandle_soft]
          exact ⟨dynamicPrefixTrace env id row ++
              [Event.checkExists (dynamic_rel_path env id) true],
            [Event.log "Aborted!"], by simp⟩
    · rw [dynamic_run_local_ok env db id row h hsep hex hloc]
      exact ⟨dynamicPrefixTrace env id row ++
          [Event.checkExists (dynamic_rel_path env id) true],
        [Event.dbSave "DynamicMix" id (some TaskStatus.done)], by simp⟩
  · intro hloc
    rw [dynamic_run_local_ok env db id row h hsep hex hloc]
    exact ⟨_, dynamicDb_save_self _ _ _, by simp [save_to_local_storage]⟩
  · intro hloc hcopy
    rw [dynamic_run_ext_ok env db id row h hsep hex hloc hcopy]
    exact ⟨_, dynamicDb_save_self _ _ _, by simp [save_to_ext_storage]⟩

/-- Witness for C10 (amended): a concrete local-storage dynamic run
renames the parts and stores the per-job-directory references. -/
theorem c10_rename_and_file_refs_witness :
    ∃ row', (create_dynamic_mix okLocalDynamicEnv testDynamicDb "d").db "d" =
        some row' ∧
      row'.status = TaskStatus.done ∧
      row'.vocals_file = pjoin (dynamic_rel_media_path okLocalDynamicEnv "d")
        (dynamic_file_stem okLocalDynamicEnv.slug testDynamicRow ++ "-vocals.mp3") ∧
      row'.other_file = pjoin (dynamic_rel_media_path okLocalDynamicEnv "d")
        (dynamic_file_stem okLocalDynamicEnv.slug testDynamicRow ++ "-other.mp3") ∧
      row'.bass_file = pjoin (dynamic_rel_media_path okLocalDynamicEnv "d")
        (dynamic_file_stem okLocalDynamicEnv.slug testDynamicRow ++ "-bass.mp3") ∧
      row'.drums_file = pjoin (dynamic_rel_media_path okLocalDynamicEnv "d")
        (dynamic_file_stem okLocalDynamicEnv.slug testDynamicRow ++ "-drums.mp3") :=
  (c10_rename_and_file_refs okLocalDynamicEnv testDynamicDb "d" testDynamicRow
    (by decide) rfl (by decide)).2.1 rfl
